import Mathlib

/-
Verification of the MQTT robot bridge (Go sources): the per-robot state
store with staleness-checked merging (robot_manager.go and the revised
snapshot in unnamed/part_000), the controller-command parser and action
translator (action_handler.go), the message handlers (message_handlers.go,
unnamed/part_003) and the auto-init workflow (robot_status_monitor.go).

Conventions of the shallow embedding:
- Go machine integers that never overflow in the modelled paths are Int
  (headerId) or Nat (counters); float64 fields are only ever copied, never
  computed with, and are modelled as Rat.
- time.Time is modelled as a Nat tick supplied by the caller (the zero
  time is 0, matching time.Time.IsZero); time.Now() inside a merge is the
  single tick passed in.
- Go maps are association lists with mapLookup / mapInsert.
- The status-change callback is not modelled as a function value; instead
  every merge returns the list of callback invocations it performs, each
  recording the arguments and the mutex depth held at the moment of the
  call (the source releases the write lock before invoking and re-acquires
  it afterwards, which the embedding renders explicitly).
- crypto/rand is an entropy oracle: a function from a draw index to 16
  bytes; each generateActionID / generateOrderID consumes one draw.
-/

namespace Bridge

/-- ConnectionState is a Go string type; the zero value is the empty string. -/
abbrev ConnectionState := String

/-- Constant ONLINE from the source. -/
def Online : ConnectionState := "ONLINE"

/-- Constant CONNECTIONBROKEN from the source. -/
def ConnectionBroken : ConnectionState := "CONNECTIONBROKEN"

/-- Constant OFFLINE from the source. -/
def Offline : ConnectionState := "OFFLINE"

/-- ErrorInfo from the shared types file. -/
structure ErrorInfo where
  errorType : String
  errorDescription : String
  errorLevel : String
deriving DecidableEq

/-- InfoMessage from the shared types file. -/
structure InfoMessage where
  infoType : String
  infoDescription : String
deriving DecidableEq

/-- ActionState from the shared types file. -/
structure ActionState where
  actionID : String
  actionType : String
  actionDescription : String
  actionStatus : String
  resultDescription : String
deriving DecidableEq

/-- AGVPosition from the shared types file. -/
structure AGVPosition where
  x : Rat
  y : Rat
  theta : Rat
  mapID : String
  mapDescription : String
  positionInitialized : Bool
  localizationScore : Rat
  deviationRange : Rat
deriving DecidableEq

/-- BatteryState as used by RobotStateMessage (fields batteryCharge / charging). -/
structure BatteryState where
  batteryCharge : Rat
  batteryVoltage : Rat
  batteryHealth : Int
  charging : Bool
  reach : Int
deriving DecidableEq

/-- SafetyState from the shared types file. -/
structure SafetyState where
  eStop : String
  fieldViolation : Bool
deriving DecidableEq

/-- Velocity from the shared types file. -/
structure Velocity where
  vx : Rat
  vy : Rat
  omega : Rat
deriving DecidableEq

/-- NodePosition from the shared types file. -/
structure NodePosition where
  x : Rat
  y : Rat
  theta : Rat
  allowedDeviationXY : Rat
  allowedDeviationTheta : Rat
  mapID : String
deriving DecidableEq

/-- NodeState from the shared types file. -/
structure NodeState where
  nodeID : String
  sequenceID : Int
  released : Bool
  nodePosition : NodePosition
deriving DecidableEq

/-- EdgeState from the shared types file. -/
structure EdgeState where
  edgeID : String
  sequenceID : Int
  released : Bool
  startNodeID : String
  endNodeID : String
deriving DecidableEq

/-- RobotConnectionMessage: the basic connection-status message. -/
structure RobotConnectionMessage where
  headerID : Int
  timestamp : String
  version : String
  manufacturer : String
  serialNumber : String
  connectionState : ConnectionState
deriving DecidableEq

/-- RobotStateMessage: the detailed state message (unnamed/part_000 revision). -/
structure RobotStateMessage where
  headerID : Int
  timestamp : String
  version : String
  manufacturer : String
  serialNumber : String
  orderID : String
  orderUpdateID : Int
  lastNodeID : String
  lastNodeSeqID : Int
  driving : Bool
  paused : Bool
  operatingMode : String
  distanceSince : Rat
  actionStates : List ActionState
  nodeStates : List NodeState
  edgeStates : List EdgeState
  errors : List ErrorInfo
  information : List InfoMessage
  agvPosition : AGVPosition
  batteryState : BatteryState
  safetyState : SafetyState
  velocity : Velocity
  newBaseRequest : Bool
deriving DecidableEq

/-- Battery sub-structure of AGVDetailedStatus (fields batteryLevel / isCharging,
per the field accesses in robot_manager.go). -/
structure AGVBattery where
  batteryLevel : Rat
  isCharging : Bool
deriving DecidableEq

/-- AGVDetailedStatus: detailed status consumed by robot_manager.go.
Reconstructed from its field uses in UpdateRobotDetailedStatus
(robot_manager.go); its declaring types file is not among the sources. -/
structure AGVDetailedStatus where
  headerID : Int
  manufacturer : String
  serialNumber : String
  connectionState : ConnectionState
  orderID : String
  orderUpdateID : Int
  driving : Bool
  paused : Bool
  operatingMode : String
  lastNodeID : String
  agvPosition : AGVPosition
  batteryState : AGVBattery
  errors : List ErrorInfo
  safetyState : SafetyState
  actionStates : List ActionState
deriving DecidableEq

/-- PLCActionMessage: parsed controller command. -/
structure PLCActionMessage where
  action : String
  serialNumber : String
deriving DecidableEq

/-- A recorded invocation of the status-change callback: the arguments the
store passed, plus the store-mutex depth held at the instant of the call. -/
structure CallbackEvent where
  serialNumber : String
  oldState : ConnectionState
  newState : ConnectionState
  lockDepth : Nat
deriving DecidableEq

/-- Mutex depth while the merge body runs (rm.mutex.Lock() at entry). -/
def lockAcquired : Nat := 1

/-- Mutex depth at the callback call site: the source executes
rm.mutex.Unlock() immediately before invoking the callback. -/
def lockAtCallback : Nat := lockAcquired - 1

/-- Go-map lookup on an association list. -/
def mapLookup {α : Type} : List (String × α) → String → Option α
  | [], _ => none
  | (k, v) :: rest, key => if k = key then some v else mapLookup rest key

/-- Go-map insertion (replace in place or append). -/
def mapInsert {α : Type} : List (String × α) → String → α → List (String × α)
  | [], key, value => [(key, value)]
  | (k, v) :: rest, key, value =>
    if k = key then (key, value) :: rest else (k, v) :: mapInsert rest key value

theorem mapLookup_mapInsert_self {α : Type} (m : List (String × α)) (k : String) (v : α) :
    mapLookup (mapInsert m k v) k = some v := by
  induction m with
  | nil => simp [mapInsert, mapLookup]
  | cons hd tl ih =>
    obtain ⟨k0, v0⟩ := hd
    by_cases h : k0 = k
    · simp [mapInsert, h, mapLookup]
    · simp [mapInsert, h, mapLookup, ih]

theorem mapLookup_mapInsert_ne {α : Type} (m : List (String × α)) (k k0 : String) (v : α)
    (h : k ≠ k0) : mapLookup (mapInsert m k v) k0 = mapLookup m k0 := by
  induction m with
  | nil => simp [mapInsert, mapLookup, h]
  | cons hd tl ih =>
    obtain ⟨k1, v1⟩ := hd
    by_cases h1 : k1 = k
    · simp [mapInsert, h1, mapLookup, h]
    · simp [mapInsert, h1, mapLookup, ih]

/-- Keys of an inserted map are the new key plus the old keys. -/
theorem mapInsert_keys_subset {α : Type} (m : List (String × α)) (k : String) (v : α) :
    ∀ k0 ∈ (mapInsert m k v).map Prod.fst, k0 = k ∨ k0 ∈ m.map Prod.fst := by
  induction m with
  | nil =>
    intro k0 hk0
    simp [mapInsert] at hk0
    exact Or.inl hk0
  | cons hd tl ih =>
    obtain ⟨k1, v1⟩ := hd
    intro k0 hk0
    by_cases h1 : k1 = k
    · simp [mapInsert, h1] at hk0
      rcases hk0 with h | h
      · exact Or.inl h
      · exact Or.inr (by simp [h])
    · simp [mapInsert, h1] at hk0
      rcases hk0 with h | h
      · exact Or.inr (by simp [h])
      · rcases ih k0 (by simpa using h) with h2 | h2
        · exact Or.inl h2
        · exact Or.inr (by simp; exact Or.inr (by simpa using h2))

namespace Mgr1

/-- RobotStatus as used by robot_manager.go (detailed status held as an
AGVDetailedStatus); fields mirror the accesses in that file. -/
structure RobotStatus where
  serialNumber : String
  manufacturer : String
  connectionState : ConnectionState
  lastUpdate : Nat
  lastHeaderID : Int
  hasFactsheet : Bool
  factsheetUpdate : Nat
  currentOrderID : String
  orderUpdateID : Int
  orderStartTime : Nat
  isExecutingOrder : Bool
  isDriving : Bool
  isPaused : Bool
  operatingMode : String
  lastNodeID : String
  currentPosition : Option AGVPosition
  batteryLevel : Rat
  isCharging : Bool
  activeActions : List ActionState
  lastError : Option ErrorInfo
  hasSafetyIssue : Bool
  detailedStatus : Option AGVDetailedStatus
  detailedUpdate : Nat
  hasDetailedInfo : Bool
  isOnline : Bool
  hasErrors : Bool
deriving DecidableEq

/-- The record Go allocates on first sight: the named fields set, every
other field the Go zero value. -/
def RobotStatus.new (serialNumber manufacturer : String) : RobotStatus where
  serialNumber := serialNumber
  manufacturer := manufacturer
  connectionState := ""
  lastUpdate := 0
  lastHeaderID := 0
  hasFactsheet := false
  factsheetUpdate := 0
  currentOrderID := ""
  orderUpdateID := 0
  orderStartTime := 0
  isExecutingOrder := false
  isDriving := false
  isPaused := false
  operatingMode := ""
  lastNodeID := ""
  currentPosition := none
  batteryLevel := 0
  isCharging := false
  activeActions := []
  lastError := none
  hasSafetyIssue := false
  detailedStatus := none
  detailedUpdate := 0
  hasDetailedInfo := false
  isOnline := false
  hasErrors := false

/-- RobotManager of robot_manager.go. The callback field only records
whether a callback is registered; invocations are returned as events. -/
structure RobotManager where
  robots : List (String × RobotStatus)
  targetSerials : List String
  hasCallback : Bool
deriving DecidableEq

/-- UpdateRobotStatus from robot_manager.go: merge of a basic connection
message. Returns the updated manager and the callback invocations made. -/
def UpdateRobotStatus (rm : RobotManager) (msg : RobotConnectionMessage) (now : Nat) :
    RobotManager × List CallbackEvent :=
  if rm.targetSerials.contains msg.serialNumber = false then (rm, [])
  else
    let robot := (mapLookup rm.robots msg.serialNumber).getD
      (RobotStatus.new msg.serialNumber msg.manufacturer)
    let robots0 := match mapLookup rm.robots msg.serialNumber with
      | some _ => rm.robots
      | none => mapInsert rm.robots msg.serialNumber robot
    if robot.lastHeaderID > msg.headerID then ({ rm with robots := robots0 }, [])
    else
      let previousState := robot.connectionState
      let robot2 := { robot with
        connectionState := msg.connectionState
        lastUpdate := now
        lastHeaderID := msg.headerID
        isOnline := msg.connectionState == Online }
      ({ rm with robots := mapInsert robots0 msg.serialNumber robot2 },
       if previousState ≠ msg.connectionState ∧ rm.hasCallback = true then
         [⟨msg.serialNumber, previousState, msg.connectionState, lockAtCallback⟩]
       else [])

/-- UpdateRobotDetailedStatus from robot_manager.go: merge of an AGV
detailed status. The body contains no staleness check and never invokes
the callback; the event list it returns is accordingly always empty. -/
def UpdateRobotDetailedStatus (rm : RobotManager) (agv : AGVDetailedStatus) (now : Nat) :
    RobotManager × List CallbackEvent :=
  if rm.targetSerials.contains agv.serialNumber = false then (rm, [])
  else
    let robot := (mapLookup rm.robots agv.serialNumber).getD
      (RobotStatus.new agv.serialNumber agv.manufacturer)
    let robots0 := match mapLookup rm.robots agv.serialNumber with
      | some _ => rm.robots
      | none => mapInsert rm.robots agv.serialNumber robot
    let robot2 := { robot with
      detailedStatus := some agv
      detailedUpdate := now
      hasDetailedInfo := true
      isOnline := agv.connectionState == Online
      connectionState := agv.connectionState
      lastUpdate := now
      lastHeaderID := agv.headerID
      currentOrderID := agv.orderID
      orderUpdateID := agv.orderUpdateID
      isExecutingOrder := agv.orderID != ""
      isDriving := agv.driving
      isPaused := agv.paused
      operatingMode := agv.operatingMode
      lastNodeID := agv.lastNodeID
      currentPosition := some agv.agvPosition
      batteryLevel := agv.batteryState.batteryLevel
      isCharging := agv.batteryState.isCharging
      hasErrors := !agv.errors.isEmpty
      lastError := match agv.errors with
        | e :: _ => some e
        | [] => robot.lastError
      hasSafetyIssue := agv.safetyState.eStop != "NONE" || agv.safetyState.fieldViolation
      activeActions := agv.actionStates }
    ({ rm with robots := mapInsert robots0 agv.serialNumber robot2 }, [])

/-- IsTargetRobot from robot_manager.go. -/
def IsTargetRobot (rm : RobotManager) (serialNumber : String) : Bool :=
  rm.targetSerials.contains serialNumber

/-- IsRobotOnline from robot_manager.go (GetRobotStatus plus the ONLINE test). -/
def IsRobotOnline (rm : RobotManager) (serialNumber : String) : Bool :=
  match mapLookup rm.robots serialNumber with
  | some robot => robot.connectionState == Online
  | none => false

/-- GetOnlineRobots from robot_manager.go. -/
def GetOnlineRobots (rm : RobotManager) : List String :=
  (rm.robots.filter (fun p => p.2.connectionState == Online)).map Prod.fst

end Mgr1

namespace Mgr2

/-- RobotStatus of the revised snapshot (unnamed/part_000 and the shared
types file): detailed status held as a RobotStateMessage, with the
connection-versus-state tracking fields. -/
structure RobotStatus where
  serialNumber : String
  manufacturer : String
  connectionState : ConnectionState
  lastUpdate : Nat
  lastHeaderID : Int
  hasFactsheet : Bool
  factsheetUpdate : Nat
  currentOrderID : String
  orderUpdateID : Int
  orderStartTime : Nat
  lastStateUpdate : Nat
  isExecutingOrder : Bool
  isDriving : Bool
  isPaused : Bool
  operatingMode : String
  currentPosition : Option AGVPosition
  batteryLevel : Rat
  isCharging : Bool
  activeActions : List ActionState
  lastError : Option ErrorInfo
  hasSafetyIssue : Bool
  lastNodeID : String
  detailedStatus : Option RobotStateMessage
  detailedUpdate : Nat
  hasDetailedInfo : Bool
  isOnline : Bool
  hasErrors : Bool
  hasConnectionInfo : Bool
  hasStateInfo : Bool
  connectionUpdate : Nat
  stateUpdate : Nat
deriving DecidableEq

/-- The record Go allocates on first sight: serial and manufacturer set,
every other field the Go zero value. -/
def RobotStatus.new (serialNumber manufacturer : String) : RobotStatus where
  serialNumber := serialNumber
  manufacturer := manufacturer
  connectionState := ""
  lastUpdate := 0
  lastHeaderID := 0
  hasFactsheet := false
  factsheetUpdate := 0
  currentOrderID := ""
  orderUpdateID := 0
  orderStartTime := 0
  lastStateUpdate := 0
  isExecutingOrder := false
  isDriving := false
  isPaused := false
  operatingMode := ""
  currentPosition := none
  batteryLevel := 0
  isCharging := false
  activeActions := []
  lastError := none
  hasSafetyIssue := false
  lastNodeID := ""
  detailedStatus := none
  detailedUpdate := 0
  hasDetailedInfo := false
  isOnline := false
  hasErrors := false
  hasConnectionInfo := false
  hasStateInfo := false
  connectionUpdate := 0
  stateUpdate := 0

/-- RobotManager of unnamed/part_000. -/
structure RobotManager where
  robots : List (String × RobotStatus)
  targetSerials : List String
  hasCallback : Bool
deriving DecidableEq

/-- UpdateRobotConnectionStatus from unnamed/part_000: like robot_manager.go
UpdateRobotStatus, but the staleness check additionally requires that
connection info was seen before, and connectionUpdate / hasConnectionInfo
are maintained. -/
def UpdateRobotConnectionStatus (rm : RobotManager) (msg : RobotConnectionMessage) (now : Nat) :
    RobotManager × List CallbackEvent :=
  if rm.targetSerials.contains msg.serialNumber = false then (rm, [])
  else
    let robot := (mapLookup rm.robots msg.serialNumber).getD
      (RobotStatus.new msg.serialNumber msg.manufacturer)
    let robots0 := match mapLookup rm.robots msg.serialNumber with
      | some _ => rm.robots
      | none => mapInsert rm.robots msg.serialNumber robot
    if robot.hasConnectionInfo = true ∧ robot.lastHeaderID > msg.headerID then
      ({ rm with robots := robots0 }, [])
    else
      let previousState := robot.connectionState
      let robot2 := { robot with
        connectionState := msg.connectionState
        lastUpdate := now
        connectionUpdate := now
        lastHeaderID := msg.headerID
        isOnline := msg.connectionState == Online
        hasConnectionInfo := true }
      ({ rm with robots := mapInsert robots0 msg.serialNumber robot2 },
       if previousState ≠ msg.connectionState ∧ rm.hasCallback = true then
         [⟨msg.serialNumber, previousState, msg.connectionState, lockAtCallback⟩]
       else [])

/-- UpdateRobotStateStatus from unnamed/part_000: merge of a detailed state
message. No staleness discard exists: the payload always replaces the
operational snapshot; only lastHeaderID / lastUpdate / manufacturer are
guarded by the header comparison. Never invokes the callback. -/
def UpdateRobotStateStatus (rm : RobotManager) (stateMsg : RobotStateMessage) (now : Nat) :
    RobotManager × List CallbackEvent :=
  if rm.targetSerials.contains stateMsg.serialNumber = false then (rm, [])
  else
    let robot := (mapLookup rm.robots stateMsg.serialNumber).getD
      (RobotStatus.new stateMsg.serialNumber stateMsg.manufacturer)
    let robots0 := match mapLookup rm.robots stateMsg.serialNumber with
      | some _ => rm.robots
      | none => mapInsert rm.robots stateMsg.serialNumber robot
    let robot1 := { robot with
      detailedStatus := some stateMsg
      detailedUpdate := now
      stateUpdate := now
      hasDetailedInfo := true
      hasStateInfo := true }
    let robot2 :=
      if robot1.hasConnectionInfo = false ∨ stateMsg.headerID > robot1.lastHeaderID then
        { robot1 with
          lastUpdate := now
          lastHeaderID := stateMsg.headerID
          manufacturer := stateMsg.manufacturer }
      else robot1
    let robot3 := { robot2 with
      currentOrderID := stateMsg.orderID
      orderUpdateID := stateMsg.orderUpdateID
      isExecutingOrder := stateMsg.orderID != ""
      isDriving := stateMsg.driving
      isPaused := stateMsg.paused
      operatingMode := stateMsg.operatingMode
      lastNodeID := stateMsg.lastNodeID
      currentPosition := some stateMsg.agvPosition
      batteryLevel := stateMsg.batteryState.batteryCharge
      isCharging := stateMsg.batteryState.charging
      hasErrors := !stateMsg.errors.isEmpty
      lastError := stateMsg.errors.head?
      hasSafetyIssue := stateMsg.safetyState.eStop != "NONE" || stateMsg.safetyState.fieldViolation
      activeActions := stateMsg.actionStates }
    let robot4 :=
      if robot3.isExecutingOrder = true ∧ robot3.orderStartTime = 0 then
        { robot3 with orderStartTime := now }
      else if robot3.isExecutingOrder = false then
        { robot3 with orderStartTime := 0 }
      else robot3
    ({ rm with robots := mapInsert robots0 stateMsg.serialNumber robot4 }, [])

/-- IsTargetRobot from unnamed/part_000. -/
def IsTargetRobot (rm : RobotManager) (serialNumber : String) : Bool :=
  rm.targetSerials.contains serialNumber

/-- IsRobotOnline from unnamed/part_000. -/
def IsRobotOnline (rm : RobotManager) (serialNumber : String) : Bool :=
  match mapLookup rm.robots serialNumber with
  | some robot => robot.connectionState == Online
  | none => false

/-- GetOnlineRobots from unnamed/part_000. -/
def GetOnlineRobots (rm : RobotManager) : List String :=
  (rm.robots.filter (fun p => p.2.connectionState == Online)).map Prod.fst

end Mgr2

/-- Lowercase hexadecimal digit (fmt %x) for a value below 16. -/
def hexDigit (n : Nat) : Char :=
  if n < 10 then Char.ofNat (48 + n) else Char.ofNat (87 + n)

/-- The two hex characters fmt %x prints for one byte. -/
def hexByteChars (b : Nat) : List Char :=
  [hexDigit (b / 16), hexDigit (b % 16)]

/-- fmt.Sprintf %x of a byte slice: two lowercase hex digits per byte. -/
def hexOfBytes (bytes : List Nat) : String :=
  String.mk (bytes.flatMap hexByteChars)

/-- The 16 bytes rand.Read fills for draw number i of the entropy oracle,
reduced to byte range. -/
def byteBlock (entropy : Nat → Fin 16 → Nat) (i : Nat) : List Nat :=
  (List.finRange 16).map (fun k => entropy i k % 256)

/-- ActionHandler from action_handler.go: the process-wide header counter,
plus the embedding of crypto/rand as an entropy oracle with a draw index. -/
structure ActionHandler where
  headerIDCounter : Int
  entropy : Nat → Fin 16 → Nat
  entropyIdx : Nat

/-- NewActionHandler: counter starts at 1. -/
def NewActionHandler (entropy : Nat → Fin 16 → Nat) : ActionHandler :=
  { headerIDCounter := 1, entropy := entropy, entropyIdx := 0 }

/-- generateActionID: hex of 16 random bytes (one entropy draw). -/
def generateActionID (ah : ActionHandler) : String × ActionHandler :=
  (hexOfBytes (byteBlock ah.entropy ah.entropyIdx), { ah with entropyIdx := ah.entropyIdx + 1 })

/-- generateOrderID: identical to generateActionID in the source. -/
def generateOrderID (ah : ActionHandler) : String × ActionHandler :=
  (hexOfBytes (byteBlock ah.entropy ah.entropyIdx), { ah with entropyIdx := ah.entropyIdx + 1 })

/-- getNextHeaderID: pre-increment of the shared counter. -/
def getNextHeaderID (ah : ActionHandler) : Int × ActionHandler :=
  (ah.headerIDCounter + 1, { ah with headerIDCounter := ah.headerIDCounter + 1 })

/-- Pose for the init action. -/
structure Pose where
  lastNodeID : String
  mapID : String
  theta : Rat
  x : Rat
  y : Rat
deriving DecidableEq

/-- Value of an action parameter (interface value: a string or a pose). -/
inductive ParamValue where
  | str (s : String)
  | pose (p : Pose)
deriving DecidableEq

/-- ActionParameter from the shared types file. -/
structure ActionParameter where
  key : String
  value : ParamValue
deriving DecidableEq

/-- Action from the shared types file (NodeAction of the older snapshot is
structurally the same type). -/
structure Action where
  actionType : String
  actionID : String
  actionDescription : String
  blockingType : String
  actionParameters : List ActionParameter
deriving DecidableEq, Inhabited

/-- Node from the shared types file. -/
structure Node where
  nodeID : String
  description : String
  sequenceID : Int
  released : Bool
  nodePosition : NodePosition
  actions : List Action
deriving DecidableEq

/-- Edge from the shared types file. -/
structure Edge where
  edgeID : String
  sequenceID : Int
  released : Bool
  startNodeID : String
  endNodeID : String
  actions : List Action
deriving DecidableEq

/-- RobotActionMessage from the shared types file. -/
structure RobotActionMessage where
  headerID : Int
  timestamp : String
  version : String
  manufacturer : String
  serialNumber : String
  actions : List Action
  orderID : String
  orderUpdateID : Int
  nodes : List Node
  edges : List Edge
deriving DecidableEq, Inhabited

/-- createBaseRobotMessage: common fields; the timestamp string renders the
caller-supplied clock tick. -/
def createBaseRobotMessage (serialNumber manufacturer : String) (now : Nat) (ah : ActionHandler) :
    RobotActionMessage × ActionHandler :=
  let (hid, ah1) := getNextHeaderID ah
  ({ headerID := hid
     timestamp := toString now
     version := "2.0.0"
     manufacturer := manufacturer
     serialNumber := serialNumber
     actions := []
     orderID := ""
     orderUpdateID := 0
     nodes := []
     edges := [] }, ah1)

/-- createBaseNodePosition from action_handler.go. -/
def createBaseNodePosition : NodePosition :=
  { x := 0, y := 0, theta := 0
    allowedDeviationXY := (0.5 : Rat)
    allowedDeviationTheta := (0.17453292 : Rat)
    mapID := "floor 0" }

/-- createInferenceNodePosition from action_handler.go. -/
def createInferenceNodePosition : NodePosition :=
  { x := (-4.16 : Rat), y := (-0.39 : Rat), theta := (3.1415927 : Rat)
    allowedDeviationXY := (0.5 : Rat)
    allowedDeviationTheta := (0.17453292 : Rat)
    mapID := "floor 0" }

/-- createTrajectoryNodePosition from action_handler.go (same as inference). -/
def createTrajectoryNodePosition : NodePosition :=
  { x := (-4.16 : Rat), y := (-0.39 : Rat), theta := (3.1415927 : Rat)
    allowedDeviationXY := (0.5 : Rat)
    allowedDeviationTheta := (0.17453292 : Rat)
    mapID := "floor 0" }

/-- createInitPositionAction from action_handler.go. -/
def createInitPositionAction (serialNumber : String) (now : Nat) (ah : ActionHandler) :
    RobotActionMessage × ActionHandler :=
  let pose : Pose := { lastNodeID := "", mapID := "", theta := 0, x := 0, y := 0 }
  let actionParam : ActionParameter := { key := "pose", value := .pose pose }
  let (actionID, ah1) := generateActionID ah
  let action : Action :=
    { actionType := "initPosition"
      actionID := actionID
      actionDescription := ""
      blockingType := "NONE"
      actionParameters := [actionParam] }
  let (base, ah2) := createBaseRobotMessage serialNumber "Roboligent" now ah1
  ({ base with actions := [action] }, ah2)

/-- createFactsheetRequestAction from action_handler.go. -/
def createFactsheetRequestAction (serialNumber manufacturer : String) (now : Nat) (ah : ActionHandler) :
    RobotActionMessage × ActionHandler :=
  let (actionID, ah1) := generateActionID ah
  let action : Action :=
    { actionType := "factsheetRequest"
      actionID := actionID
      actionDescription := ""
      blockingType := "NONE"
      actionParameters := [] }
  let (base, ah2) := createBaseRobotMessage serialNumber manufacturer now ah1
  ({ base with actions := [action] }, ah2)

/-- createInferenceAction from action_handler.go: two-node, one-edge order. -/
def createInferenceAction (serialNumber inferenceName : String) (now : Nat) (ah : ActionHandler) :
    RobotActionMessage × ActionHandler :=
  let intermediateNode : Node :=
    { nodeID := "intermediate_node_0_0"
      description := "intermediate point 0 of task inference-" ++ inferenceName ++ " subtask index 0"
      sequenceID := 0
      released := true
      nodePosition := createBaseNodePosition
      actions := [] }
  let (aid, ah1) := generateActionID ah
  let inferenceAction : Action :=
    { actionType := "Roboligent Robin - Inference"
      actionID := aid
      actionDescription := "This is an action will trigger the behavior tree for executing inference."
      blockingType := "NONE"
      actionParameters := [{ key := "inference_name", value := .str inferenceName }] }
  let (nid, ah2) := generateActionID ah1
  let inferenceNode : Node :=
    { nodeID := nid
      description := "we are in 2 Subtask of inference-" ++ inferenceName ++ " at index 0"
      sequenceID := 2
      released := true
      nodePosition := createInferenceNodePosition
      actions := [inferenceAction] }
  let edge : Edge :=
    { edgeID := "intermediate_edge_0_0"
      sequenceID := 1
      released := true
      startNodeID := "intermediate_node_0_0"
      endNodeID := inferenceNode.nodeID
      actions := [] }
  let (base, ah3) := createBaseRobotMessage serialNumber "Roboligent" now ah2
  let (oid, ah4) := generateOrderID ah3
  ({ base with
      orderID := oid
      orderUpdateID := 0
      nodes := [intermediateNode, inferenceNode]
      edges := [edge] }, ah4)

/-- createTrajectoryAction from action_handler.go: two-node, one-edge order
with the default right-arm parameter. -/
def createTrajectoryAction (serialNumber trajectoryName : String) (now : Nat) (ah : ActionHandler) :
    RobotActionMessage × ActionHandler :=
  let intermediateNode : Node :=
    { nodeID := "intermediate_node_0_0"
      description := "intermediate point 0 of task trajectory-" ++ trajectoryName ++ " subtask index 0"
      sequenceID := 0
      released := true
      nodePosition := createBaseNodePosition
      actions := [] }
  let (aid, ah1) := generateActionID ah
  let trajectoryAction : Action :=
    { actionType := "Roboligent Robin - Follow Trajectory"
      actionID := aid
      actionDescription := "This action will trigger the behavior tree for following a recorded trajectory."
      blockingType := "NONE"
      actionParameters :=
        [{ key := "arm", value := .str "right" },
         { key := "trajectory_name", value := .str trajectoryName }] }
  let (nid, ah2) := generateActionID ah1
  let trajectoryNode : Node :=
    { nodeID := nid
      description := "we are in 2 Subtask of trajectory-" ++ trajectoryName ++ " at index 0"
      sequenceID := 2
      released := true
      nodePosition := createTrajectoryNodePosition
      actions := [trajectoryAction] }
  let edge : Edge :=
    { edgeID := "intermediate_edge_0_0"
      sequenceID := 1
      released := true
      startNodeID := "intermediate_node_0_0"
      endNodeID := trajectoryNode.nodeID
      actions := [] }
  let (base, ah3) := createBaseRobotMessage serialNumber "Roboligent" now ah2
  let (oid, ah4) := generateOrderID ah3
  ({ base with
      orderID := oid
      orderUpdateID := 0
      nodes := [intermediateNode, trajectoryNode]
      edges := [edge] }, ah4)

/-- ConvertPLCActionToRobotAction from action_handler.go; translation errors
are the none result and leave the handler state untouched. -/
def ConvertPLCActionToRobotAction (plcAction : PLCActionMessage) (serialNumber : String)
    (now : Nat) (ah : ActionHandler) : Option RobotActionMessage × ActionHandler :=
  if plcAction.action = "init" then
    let (m, ah1) := createInitPositionAction serialNumber now ah
    (some m, ah1)
  else if plcAction.action = "factsheetRequest" then
    let (m, ah1) := createFactsheetRequestAction serialNumber "Roboligent" now ah
    (some m, ah1)
  else if "inference:".isPrefixOf plcAction.action then
    let inferenceName := plcAction.action.drop 10
    if inferenceName = "" then (none, ah)
    else
      let (m, ah1) := createInferenceAction serialNumber inferenceName now ah
      (some m, ah1)
  else if "trajectory:".isPrefixOf plcAction.action then
    let trajectoryName := plcAction.action.drop 11
    if trajectoryName = "" then (none, ah)
    else
      let (m, ah1) := createTrajectoryAction serialNumber trajectoryName now ah
      (some m, ah1)
  else (none, ah)

/-- ValidatePLCAction from action_handler.go (true = no validation error). -/
def ValidatePLCAction (plcAction : PLCActionMessage) : Bool :=
  if plcAction.action = "" then false
  else if plcAction.action = "init" ∨ plcAction.action = "factsheetRequest" then true
  else if "inference:".isPrefixOf plcAction.action then plcAction.action.drop 10 ≠ ""
  else if "trajectory:".isPrefixOf plcAction.action then plcAction.action.drop 11 ≠ ""
  else false

/-- An ASCII whitespace character (the model of unicode.IsSpace used by
strings.TrimSpace; the payloads of this protocol are ASCII). -/
def goIsSpace (c : Char) : Bool :=
  c = ' ' || c = '\t' || c = '\n' || c = '\r' || c = Char.ofNat 11 || c = Char.ofNat 12

/-- strings.TrimSpace: drop leading and trailing whitespace. -/
def goTrimSpace (s : String) : String :=
  String.mk (((s.data.dropWhile goIsSpace).reverse.dropWhile goIsSpace).reverse)

/-- strings.Contains with a one-character separator. -/
def goContainsChar (s : String) (c : Char) : Bool :=
  s.data.contains c

/-- The serial segment of a trimmed payload: the first component of
strings.SplitN(payload, separator, 2) - the text before the first
separator - whitespace-trimmed. -/
def serialSegment (t : String) : String :=
  goTrimSpace (String.mk (t.data.takeWhile (fun c => c != ':')))

/-- The command segment of a trimmed payload: the second component of
strings.SplitN(payload, separator, 2) - the text after the first
separator - whitespace-trimmed. -/
def commandSegment (t : String) : String :=
  goTrimSpace (String.mk ((t.data.dropWhile (fun c => c != ':')).tail))

/-- ParsePLCActionMessage from action_handler.go. The SplitN(.., 2) call is
rendered by the two segment functions (split at the first separator, each
part trimmed); the none result is the parse error. -/
def ParsePLCActionMessage (payload : String) : Option PLCActionMessage :=
  if goContainsChar (goTrimSpace payload) ':' then
    if serialSegment (goTrimSpace payload) = "" ∨ commandSegment (goTrimSpace payload) = "" then
      none
    else
      some { action := commandSegment (goTrimSpace payload)
             serialNumber := serialSegment (goTrimSpace payload) }
  else if goTrimSpace payload = "init" then
    some { action := "init", serialNumber := "" }
  else none

/-- buildRobotActionTopic from unnamed/part_002. -/
def buildRobotActionTopic (serialNumber : String) : String :=
  "meili/v2/Roboligent/" ++ serialNumber ++ "/instantActions"

/-- buildRobotOrderTopic from unnamed/part_002. -/
def buildRobotOrderTopic (serialNumber : String) : String :=
  "meili/v2/Roboligent/" ++ serialNumber ++ "/orders"

/-- validateRobotActionMessage from unnamed/part_002 (true = valid). -/
def validateRobotActionMessage (msg : RobotActionMessage) : Bool :=
  if msg.serialNumber = "" then false
  else if msg.manufacturer = "" then false
  else if msg.version = "" then false
  else if msg.actions.length > 0 then
    msg.actions.all (fun a => a.actionType != "" && a.actionID != "" && a.blockingType != "")
  else if msg.nodes.length > 0 then
    msg.orderID != "" && msg.nodes.all (fun n => n.nodeID != "")
  else false

/-- sendActionToRobot from message_handlers.go: target and liveness guards,
then translate and publish. A successful publish is the pair of topic and
message; every failure is none. -/
def sendActionToRobotMP (rm : Mgr2.RobotManager) (ah : ActionHandler) (now : Nat)
    (plcAction : PLCActionMessage) (serialNumber : String) :
    Option (String × RobotActionMessage) × ActionHandler :=
  if Mgr2.IsTargetRobot rm serialNumber = false then (none, ah)
  else if Mgr2.IsRobotOnline rm serialNumber = false then (none, ah)
  else
    match ConvertPLCActionToRobotAction plcAction serialNumber now ah with
    | (none, ah1) => (none, ah1)
    | (some robotAction, ah1) =>
      let topic :=
        if plcAction.action = "cancelOrder" then buildRobotOrderTopic serialNumber
        else buildRobotActionTopic serialNumber
      (some (topic, robotAction), ah1)

/-- App-level configuration fields consumed by the auto-init workflow. -/
structure AppConfig where
  autoInitOnConnect : Bool
  autoInitDelaySec : Nat
  autoFactsheetRequest : Bool
deriving DecidableEq

/-- The guard of handleRobotStatusChange (robot_status_monitor.go): an init
workflow is scheduled exactly when auto-init is enabled and the transition
goes from a non-ONLINE state to ONLINE. -/
def autoInitScheduled (cfg : AppConfig) (oldState newState : ConnectionState) : Bool :=
  cfg.autoInitOnConnect && oldState != Online && newState == Online

/-- The body of the goroutine scheduled by handleRobotStatusChange
(robot_status_monitor.go), evaluated after the delay has elapsed: rm is the
store state at send time. Re-checks liveness, then delegates to the
message-processor sendActionToRobot. -/
def autoInitDelayedBody (rm : Mgr2.RobotManager) (ah : ActionHandler) (now : Nat)
    (serialNumber : String) : Option (String × RobotActionMessage) × ActionHandler :=
  if Mgr2.IsRobotOnline rm serialNumber = false then (none, ah)
  else sendActionToRobotMP rm ah now { action := "init", serialNumber := serialNumber } serialNumber

/-- sendActionToRobot from unnamed/part_003 (bridge variant): connection
guard, translate, message validation, publish to the instant-action topic. -/
def sendActionToRobotMB (connected : Bool) (ah : ActionHandler) (now : Nat)
    (plcAction : PLCActionMessage) (serialNumber : String) :
    Option (String × RobotActionMessage) × ActionHandler :=
  if connected = false then (none, ah)
  else
    match ConvertPLCActionToRobotAction plcAction serialNumber now ah with
    | (none, ah1) => (none, ah1)
    | (some robotAction, ah1) =>
      if validateRobotActionMessage robotAction = false then (none, ah1)
      else (some (buildRobotActionTopic serialNumber, robotAction), ah1)

/-- handlePLCActionMessage from unnamed/part_003: parse, validate, resolve
the target robots (an empty serial broadcasts to every online target
robot), then send to each in turn. Returns the published
(serial, topic, message) triples. -/
def handlePLCActionMessage (connected : Bool) (rm : Mgr1.RobotManager) (ah : ActionHandler)
    (now : Nat) (payload : String) :
    List (String × String × RobotActionMessage) × ActionHandler :=
  if connected = false then ([], ah)
  else
    match ParsePLCActionMessage payload with
    | none => ([], ah)
    | some plcAction =>
      if ValidatePLCAction plcAction = false then ([], ah)
      else
        let targetRobots : List String :=
          if plcAction.serialNumber ≠ "" then
            if Mgr1.IsRobotOnline rm plcAction.serialNumber then
              if Mgr1.IsTargetRobot rm plcAction.serialNumber = false then []
              else [plcAction.serialNumber]
            else []
          else (Mgr1.GetOnlineRobots rm).filter (fun s => Mgr1.IsTargetRobot rm s)
        if targetRobots = [] then ([], ah)
        else
          targetRobots.foldl
            (fun acc serialNumber =>
              match sendActionToRobotMB connected acc.2 now plcAction serialNumber with
              | (some published, ah1) => (acc.1 ++ [(serialNumber, published.1, published.2)], ah1)
              | (none, ah1) => (acc.1, ah1))
            ([], ah)

/-! Concrete fixtures used by counterexamples and witnesses. -/

/-- A registered robot (robot_manager.go variant): ONLINE with header 5. -/
def exRobot1 : Mgr1.RobotStatus :=
  { Mgr1.RobotStatus.new "R1" "M" with
      connectionState := Online, lastHeaderID := 5, isOnline := true }

/-- A one-robot store (robot_manager.go variant), roster = R1, callback set. -/
def exRM1 : Mgr1.RobotManager :=
  { robots := [("R1", exRobot1)], targetSerials := ["R1"], hasCallback := true }

/-- A connection message with the same header (5) the store already holds,
reporting OFFLINE. -/
def exConnMsgEq : RobotConnectionMessage :=
  { headerID := 5, timestamp := "t", version := "2.0.0", manufacturer := "M"
    serialNumber := "R1", connectionState := Offline }

/-- A connection message with a strictly older header (3), reporting OFFLINE. -/
def exConnMsgOld : RobotConnectionMessage :=
  { headerID := 3, timestamp := "t", version := "2.0.0", manufacturer := "M"
    serialNumber := "R1", connectionState := Offline }

/-- An all-zero AGV position. -/
def exAgvPos : AGVPosition :=
  { x := 0, y := 0, theta := 0, mapID := "", mapDescription := ""
    positionInitialized := false, localizationScore := 0, deviationRange := 0 }

/-- A detailed status for R1 with an older header (3), reporting OFFLINE. -/
def exAgv3 : AGVDetailedStatus :=
  { headerID := 3, manufacturer := "M", serialNumber := "R1"
    connectionState := Offline, orderID := "", orderUpdateID := 0
    driving := false, paused := false, operatingMode := "", lastNodeID := ""
    agvPosition := exAgvPos
    batteryState := { batteryLevel := 0, isCharging := false }
    errors := [], safetyState := { eStop := "NONE", fieldViolation := false }
    actionStates := [] }

/-- A registered robot (unnamed/part_000 variant): ONLINE with header 5 and
connection info present. -/
def exRobot2 : Mgr2.RobotStatus :=
  { Mgr2.RobotStatus.new "R1" "M" with
      connectionState := Online, lastHeaderID := 5, isOnline := true
      hasConnectionInfo := true }

/-- A one-robot store (unnamed/part_000 variant), roster = R1, callback set. -/
def exRM2 : Mgr2.RobotManager :=
  { robots := [("R1", exRobot2)], targetSerials := ["R1"], hasCallback := true }

/-!  C1: staleness rule and monotonicity of the stored lastHeaderId. -/

/-- C1 counterexample. The claim says a merge with headerId equal to the
stored lastHeaderId is discarded with no field change and no callback; in
the code the discard test is strict, so the equal-header OFFLINE message is
applied (stored state changes to OFFLINE) and the callback fires. The claim
also says lastHeaderId is monotonically non-decreasing, but the detailed
merge of robot_manager.go has no staleness check at all and lowers the
stored lastHeaderId from 5 to 3. -/
theorem C1_counterexample :
    (exConnMsgEq.headerID ≤ exRobot1.lastHeaderID) ∧
    ((Mgr1.UpdateRobotStatus exRM1 exConnMsgEq 7).2 ≠ []) ∧
    ((mapLookup (Mgr1.UpdateRobotStatus exRM1 exConnMsgEq 7).1.robots "R1").map
        Mgr1.RobotStatus.connectionState = some Offline) ∧
    ((mapLookup (Mgr1.UpdateRobotDetailedStatus exRM1 exAgv3 7).1.robots "R1").map
        Mgr1.RobotStatus.lastHeaderID = some 3) := by
  decide

/-- C1, amended. For connection-only merges the staleness discard is strict:
a message whose headerId is strictly below the stored value (for an
existing record; in the part_000 variant, one that has connection info) is
discarded without changing the store and without firing the callback, and
the stored lastHeaderId never decreases across a connection merge; equal
headers are re-applied. Detailed-telemetry merges have no staleness
discard: the part_000 state merge leaves lastHeaderId unchanged for a
non-newer header while still replacing the snapshot, and the
robot_manager.go detailed merge (see the counterexample) overwrites it
unconditionally. -/
theorem C1_theorem :
    (∀ (rm : Mgr1.RobotManager) (msg : RobotConnectionMessage) (now : Nat)
        (r : Mgr1.RobotStatus),
      mapLookup rm.robots msg.serialNumber = some r →
      msg.headerID < r.lastHeaderID →
      Mgr1.UpdateRobotStatus rm msg now = (rm, [])) ∧
    (∀ (rm : Mgr1.RobotManager) (msg : RobotConnectionMessage) (now : Nat)
        (r r' : Mgr1.RobotStatus),
      mapLookup rm.robots msg.serialNumber = some r →
      mapLookup (Mgr1.UpdateRobotStatus rm msg now).1.robots msg.serialNumber = some r' →
      r.lastHeaderID ≤ r'.lastHeaderID) ∧
    (∀ (rm : Mgr2.RobotManager) (msg : RobotConnectionMessage) (now : Nat)
        (r : Mgr2.RobotStatus),
      mapLookup rm.robots msg.serialNumber = some r →
      r.hasConnectionInfo = true →
      msg.headerID < r.lastHeaderID →
      Mgr2.UpdateRobotConnectionStatus rm msg now = (rm, [])) ∧
    (∀ (rm : Mgr2.RobotManager) (msg : RobotStateMessage) (now : Nat)
        (r r' : Mgr2.RobotStatus),
      mapLookup rm.robots msg.serialNumber = some r →
      r.hasConnectionInfo = true →
      msg.headerID ≤ r.lastHeaderID →
      mapLookup (Mgr2.UpdateRobotStateStatus rm msg now).1.robots msg.serialNumber = some r' →
      r'.lastHeaderID = r.lastHeaderID) := by
  refine ⟨?_, ?_, ?_, ?_⟩
  · intro rm msg now r hr hlt
    unfold Mgr1.UpdateRobotStatus
    split
    · rfl
    · simp only [hr, Option.getD_some]
      rw [if_pos (by omega)]
  · intro rm msg now r r' hr hr'
    simp only [Mgr1.UpdateRobotStatus, hr, Option.getD_some] at hr'
    split at hr'
    · rw [hr] at hr'
      injection hr' with h
      subst h
      exact le_refl _
    · by_cases hstale : r.lastHeaderID > msg.headerID
      · rw [if_pos hstale] at hr'
        dsimp only at hr'
        rw [hr] at hr'
        injection hr' with h
        subst h
        exact le_refl _
      · rw [if_neg hstale] at hr'
        dsimp only at hr'
        rw [mapLookup_mapInsert_self] at hr'
        injection hr' with h
        subst h
        exact not_lt.mp hstale
  · intro rm msg now r hr hconn hlt
    unfold Mgr2.UpdateRobotConnectionStatus
    split
    · rfl
    · simp only [hr, Option.getD_some]
      rw [if_pos ⟨hconn, by omega⟩]
  · intro rm msg now r r' hr hconn hle hr'
    by_cases hroster : rm.targetSerials.contains msg.serialNumber = false
    · simp only [Mgr2.UpdateRobotStateStatus, if_pos hroster] at hr'
      rw [hr] at hr'
      injection hr' with h
      subst h
      rfl
    · simp only [Mgr2.UpdateRobotStateStatus, if_neg hroster, hr, Option.getD_some] at hr'
      have hcond : ¬(r.hasConnectionInfo = false ∨ msg.headerID > r.lastHeaderID) := by
        rintro (h1 | h2)
        · rw [hconn] at h1
          exact absurd h1 (by decide)
        · omega
      rw [if_neg hcond] at hr'
      rw [mapLookup_mapInsert_self] at hr'
      injection hr' with h
      subst h
      split
      · rfl
      · split
        · rfl
        · rfl

/-!  C2: when the transition listener fires, and with which arguments. -/

/-- C2 counterexample. The claim says the listener fires whenever a merge
passes the roster and staleness checks and changes the stored
ConnectionState. The detailed merge of robot_manager.go passes the roster
check (it has no staleness check at all), flips the stored state from
ONLINE to OFFLINE, and still invokes no listener. -/
theorem C2_counterexample :
    (Mgr1.IsTargetRobot exRM1 "R1" = true) ∧
    (exRM1.hasCallback = true) ∧
    ((mapLookup exRM1.robots "R1").map Mgr1.RobotStatus.connectionState = some Online) ∧
    ((mapLookup (Mgr1.UpdateRobotDetailedStatus exRM1 exAgv3 7).1.robots "R1").map
        Mgr1.RobotStatus.connectionState = some Offline) ∧
    ((Mgr1.UpdateRobotDetailedStatus exRM1 exAgv3 7).2 = []) := by
  decide

/-- C2, amended. For connection-only merges the claim holds: with a callback
registered, the listener fires exactly once, if and only if the roster check
passes, the merge is not discarded as stale, and the incoming state differs
from the stored one, and the arguments are the serial plus the actual
before and after states (the after state being what is then stored).
Detailed-telemetry merges, however, never invoke the listener, even when
they change the stored ConnectionState. -/
theorem C2_theorem :
    (∀ (rm : Mgr1.RobotManager) (msg : RobotConnectionMessage) (now : Nat),
      rm.hasCallback = true →
      (Mgr1.UpdateRobotStatus rm msg now).2 =
        (if rm.targetSerials.contains msg.serialNumber = true ∧
            ¬ ((mapLookup rm.robots msg.serialNumber).getD
                (Mgr1.RobotStatus.new msg.serialNumber msg.manufacturer)).lastHeaderID >
                  msg.headerID ∧
            ((mapLookup rm.robots msg.serialNumber).getD
                (Mgr1.RobotStatus.new msg.serialNumber msg.manufacturer)).connectionState ≠
              msg.connectionState then
          [⟨msg.serialNumber,
            ((mapLookup rm.robots msg.serialNumber).getD
                (Mgr1.RobotStatus.new msg.serialNumber msg.manufacturer)).connectionState,
            msg.connectionState, lockAtCallback⟩]
        else [])) ∧
    (∀ (rm : Mgr1.RobotManager) (msg : RobotConnectionMessage) (now : Nat) (e : CallbackEvent),
      e ∈ (Mgr1.UpdateRobotStatus rm msg now).2 →
      e.serialNumber = msg.serialNumber ∧ e.newState = msg.connectionState ∧
      (mapLookup (Mgr1.UpdateRobotStatus rm msg now).1.robots msg.serialNumber).map
          Mgr1.RobotStatus.connectionState = some e.newState ∧
      ((mapLookup rm.robots msg.serialNumber).getD
          (Mgr1.RobotStatus.new msg.serialNumber msg.manufacturer)).connectionState =
        e.oldState) ∧
    (∀ (rm : Mgr2.RobotManager) (msg : RobotConnectionMessage) (now : Nat),
      rm.hasCallback = true →
      (Mgr2.UpdateRobotConnectionStatus rm msg now).2 =
        (if rm.targetSerials.contains msg.serialNumber = true ∧
            ¬ (((mapLookup rm.robots msg.serialNumber).getD
                  (Mgr2.RobotStatus.new msg.serialNumber msg.manufacturer)).hasConnectionInfo =
                  true ∧
                ((mapLookup rm.robots msg.serialNumber).getD
                  (Mgr2.RobotStatus.new msg.serialNumber msg.manufacturer)).lastHeaderID >
                  msg.headerID) ∧
            ((mapLookup rm.robots msg.serialNumber).getD
                (Mgr2.RobotStatus.new msg.serialNumber msg.manufacturer)).connectionState ≠
              msg.connectionState then
          [⟨msg.serialNumber,
            ((mapLookup rm.robots msg.serialNumber).getD
                (Mgr2.RobotStatus.new msg.serialNumber msg.manufacturer)).connectionState,
            msg.connectionState, lockAtCallback⟩]
        else [])) ∧
    (∀ (rm : Mgr1.RobotManager) (agv : AGVDetailedStatus) (now : Nat),
      (Mgr1.UpdateRobotDetailedStatus rm agv now).2 = []) ∧
    (∀ (rm : Mgr2.RobotManager) (msg : RobotStateMessage) (now : Nat),
      (Mgr2.UpdateRobotStateStatus rm msg now).2 = []) := by
  refine ⟨?_, ?_, ?_, ?_, ?_⟩
  · intro rm msg now hcb
    by_cases hroster : rm.targetSerials.contains msg.serialNumber = false
    · simp only [Mgr1.UpdateRobotStatus]
      rw [if_pos hroster, if_neg (by
        rintro ⟨h1, -⟩
        rw [hroster] at h1
        exact absurd h1 (by decide))]
    · have hroster' : rm.targetSerials.contains msg.serialNumber = true := by
        cases h : rm.targetSerials.contains msg.serialNumber
        · exact absurd h hroster
        · rfl
      simp only [Mgr1.UpdateRobotStatus]
      rw [if_neg hroster]
      by_cases hstale :
        ((mapLookup rm.robots msg.serialNumber).getD
          (Mgr1.RobotStatus.new msg.serialNumber msg.manufacturer)).lastHeaderID > msg.headerID
      · rw [if_pos hstale, if_neg (by
          rintro ⟨-, h2, -⟩
          exact h2 hstale)]
      · rw [if_neg hstale]
        by_cases hdiff :
          ((mapLookup rm.robots msg.serialNumber).getD
            (Mgr1.RobotStatus.new msg.serialNumber msg.manufacturer)).connectionState ≠
            msg.connectionState
        · rw [if_pos ⟨hdiff, hcb⟩, if_pos ⟨hroster', hstale, hdiff⟩]
        · rw [if_neg (by
            rintro ⟨h1, -⟩
            exact hdiff h1), if_neg (by
            rintro ⟨-, -, h3⟩
            exact hdiff h3)]
  · intro rm msg now e he
    by_cases hroster : rm.targetSerials.contains msg.serialNumber = false
    · simp only [Mgr1.UpdateRobotStatus] at he
      rw [if_pos hroster] at he
      simp at he
    · simp only [Mgr1.UpdateRobotStatus] at he ⊢
      rw [if_neg hroster] at he ⊢
      by_cases hstale :
        ((mapLookup rm.robots msg.serialNumber).getD
          (Mgr1.RobotStatus.new msg.serialNumber msg.manufacturer)).lastHeaderID > msg.headerID
      · rw [if_pos hstale] at he
        simp at he
      · rw [if_neg hstale] at he ⊢
        by_cases hfire :
          ((mapLookup rm.robots msg.serialNumber).getD
            (Mgr1.RobotStatus.new msg.serialNumber msg.manufacturer)).connectionState ≠
            msg.connectionState ∧ rm.hasCallback = true
        · rw [if_pos hfire] at he
          simp only [List.mem_singleton] at he
          subst he
          refine ⟨rfl, rfl, ?_, rfl⟩
          dsimp only
          rw [mapLookup_mapInsert_self]
          rfl
        · rw [if_neg hfire] at he
          simp at he
  · intro rm msg now hcb
    by_cases hroster : rm.targetSerials.contains msg.serialNumber = false
    · simp only [Mgr2.UpdateRobotConnectionStatus]
      rw [if_pos hroster, if_neg (by
        rintro ⟨h1, -⟩
        rw [hroster] at h1
        exact absurd h1 (by decide))]
    · have hroster' : rm.targetSerials.contains msg.serialNumber = true := by
        cases h : rm.targetSerials.contains msg.serialNumber
        · exact absurd h hroster
        · rfl
      simp only [Mgr2.UpdateRobotConnectionStatus]
      rw [if_neg hroster]
      by_cases hstale :
        ((mapLookup rm.robots msg.serialNumber).getD
            (Mgr2.RobotStatus.new msg.serialNumber msg.manufacturer)).hasConnectionInfo = true ∧
        ((mapLookup rm.robots msg.serialNumber).getD
            (Mgr2.RobotStatus.new msg.serialNumber msg.manufacturer)).lastHeaderID > msg.headerID
      · rw [if_pos hstale, if_neg (by
          rintro ⟨-, h2, -⟩
          exact h2 hstale)]
      · rw [if_neg hstale]
        by_cases hdiff :
          ((mapLookup rm.robots msg.serialNumber).getD
            (Mgr2.RobotStatus.new msg.serialNumber msg.manufacturer)).connectionState ≠
            msg.connectionState
        · rw [if_pos ⟨hdiff, hcb⟩, if_pos ⟨hroster', hstale, hdiff⟩]
        · rw [if_neg (by
            rintro ⟨h1, -⟩
            exact hdiff h1), if_neg (by
            rintro ⟨-, -, h3⟩
            exact hdiff h3)]
  · intro rm agv now
    unfold Mgr1.UpdateRobotDetailedStatus
    split
    · rfl
    · rfl
  · intro rm msg now
    unfold Mgr2.UpdateRobotStateStatus
    split
    · rfl
    · rfl

/-- C2 witness: the amended characterization evaluated at the concrete
one-robot store: the equal-header OFFLINE message makes the listener fire
exactly once with serial R1, old ONLINE, new OFFLINE, at lock depth 0. -/
theorem C2_witness :
    (Mgr1.UpdateRobotStatus exRM1 exConnMsgEq 7).2 =
      [⟨"R1", Online, Offline, lockAtCallback⟩] := by
  have h := C2_theorem.1 exRM1 exConnMsgEq 7 (by decide)
  rw [h]
  decide

/-!  C3: what a partial detailed-telemetry payload does to stored fields. -/

/-- A registered robot (part_000 variant) whose snapshot holds a non-zero
operating mode and a driving flag. -/
def exRobot2d : Mgr2.RobotStatus :=
  { Mgr2.RobotStatus.new "R1" "M" with
      connectionState := Online, lastHeaderID := 5, isOnline := true
      hasConnectionInfo := true, operatingMode := "AUTOMATIC", isDriving := true }

/-- Store holding exRobot2d. -/
def exRM2d : Mgr2.RobotManager :=
  { robots := [("R1", exRobot2d)], targetSerials := ["R1"], hasCallback := true }

/-- An all-zero battery state. -/
def exBattery : BatteryState :=
  { batteryCharge := 0, batteryVoltage := 0, batteryHealth := 0, charging := false, reach := 0 }

/-- A quiet safety state. -/
def exSafety : SafetyState := { eStop := "NONE", fieldViolation := false }

/-- A zero velocity. -/
def exVelocity : Velocity := { vx := 0, vy := 0, omega := 0 }

/-- A partial state payload: operatingMode and driving are absent from the
JSON body, so they decode to the zero values "" and false. -/
def exStateMsgPartial : RobotStateMessage :=
  { headerID := 6, timestamp := "t", version := "2.0.0", manufacturer := "M"
    serialNumber := "R1", orderID := "", orderUpdateID := 0, lastNodeID := ""
    lastNodeSeqID := 0, driving := false, paused := false, operatingMode := ""
    distanceSince := 0, actionStates := [], nodeStates := [], edgeStates := []
    errors := [], information := [], agvPosition := exAgvPos
    batteryState := exBattery, safetyState := exSafety, velocity := exVelocity
    newBaseRequest := false }

/-- C3 counterexample. The claim says fields absent from a partial payload
are left unchanged. Merging a payload whose operatingMode and driving
fields are absent (and therefore decoded as zero values) overwrites the
stored AUTOMATIC mode with the empty string and the stored driving flag
with false. -/
theorem C3_counterexample :
    (exStateMsgPartial.operatingMode = "" ∧ exStateMsgPartial.driving = false) ∧
    ((mapLookup exRM2d.robots "R1").map Mgr2.RobotStatus.operatingMode = some "AUTOMATIC") ∧
    ((mapLookup exRM2d.robots "R1").map Mgr2.RobotStatus.isDriving = some true) ∧
    ((mapLookup (Mgr2.UpdateRobotStateStatus exRM2d exStateMsgPartial 7).1.robots "R1").map
        Mgr2.RobotStatus.operatingMode = some "") ∧
    ((mapLookup (Mgr2.UpdateRobotStateStatus exRM2d exStateMsgPartial 7).1.robots "R1").map
        Mgr2.RobotStatus.isDriving = some false) := by
  decide

/-- C3, amended. A detailed-telemetry merge (part_000 UpdateRobotStateStatus)
replaces the operational snapshot wholesale with the decoded payload: every
snapshot field is set to the payload value (fields absent from a partial
payload arrive as zero values and thus clear the stored values rather than
being preserved); lastError becomes the first payload error or is cleared
when the payload carries none. -/
theorem C3_theorem (rm : Mgr2.RobotManager) (msg : RobotStateMessage) (now : Nat)
    (hroster : rm.targetSerials.contains msg.serialNumber = true) :
    ∃ r', mapLookup (Mgr2.UpdateRobotStateStatus rm msg now).1.robots msg.serialNumber = some r' ∧
      r'.operatingMode = msg.operatingMode ∧
      r'.isDriving = msg.driving ∧
      r'.isPaused = msg.paused ∧
      r'.currentOrderID = msg.orderID ∧
      r'.orderUpdateID = msg.orderUpdateID ∧
      r'.lastNodeID = msg.lastNodeID ∧
      r'.currentPosition = some msg.agvPosition ∧
      r'.batteryLevel = msg.batteryState.batteryCharge ∧
      r'.isCharging = msg.batteryState.charging ∧
      r'.activeActions = msg.actionStates ∧
      r'.lastError = msg.errors.head? ∧
      r'.hasErrors = !msg.errors.isEmpty ∧
      r'.detailedStatus = some msg := by
  have hroster' : ¬(rm.targetSerials.contains msg.serialNumber = false) := by
    rw [hroster]
    decide
  simp only [Mgr2.UpdateRobotStateStatus]
  rw [if_neg hroster']
  refine ⟨_, mapLookup_mapInsert_self _ _ _, ?_⟩
  split_ifs <;>
    exact ⟨rfl, rfl, rfl, rfl, rfl, rfl, rfl, rfl, rfl, rfl, rfl, rfl, rfl⟩

/-- C3 witness: the replacement semantics evaluated at the concrete store:
the partial payload clears the stored AUTOMATIC operating mode. -/
theorem C3_witness :
    (mapLookup (Mgr2.UpdateRobotStateStatus exRM2d exStateMsgPartial 7).1.robots
        exStateMsgPartial.serialNumber).map Mgr2.RobotStatus.operatingMode = some "" := by
  obtain ⟨r', hfind, hfields⟩ := C3_theorem exRM2d exStateMsgPartial 7 (by decide)
  rw [hfind]
  simp only [Option.map]
  rw [hfields.1]
  rfl

/-- Inserting a roster member preserves roster membership of all keys. -/
theorem keys_of_mapInsert_target {α : Type} (m : List (String × α)) (targets : List String)
    (s : String) (v : α)
    (hall : ∀ k ∈ m.map Prod.fst, targets.contains k = true)
    (hs : targets.contains s = true) :
    ∀ k ∈ (mapInsert m s v).map Prod.fst, targets.contains k = true := by
  intro k hk
  rcases mapInsert_keys_subset m s v k hk with h | h
  · subst h
    exact hs
  · exact hall k h

/-!  C5: roster gating of every merge, and the roster invariant. -/

/-- A connection message for a robot that is not on the roster. -/
def exConnMsgR2 : RobotConnectionMessage :=
  { headerID := 1, timestamp := "t", version := "2.0.0", manufacturer := "M"
    serialNumber := "R2", connectionState := Online }

/-- C5: a merge for a serial outside the target roster is a silent no-op in
all four merge operations (no record created or modified, no callback
fired), and consequently if every record in the store belongs to a roster
serial, that is still true after any connection or state merge. -/
theorem C5_theorem :
    (∀ (rm : Mgr1.RobotManager) (msg : RobotConnectionMessage) (now : Nat),
      rm.targetSerials.contains msg.serialNumber = false →
      Mgr1.UpdateRobotStatus rm msg now = (rm, [])) ∧
    (∀ (rm : Mgr1.RobotManager) (agv : AGVDetailedStatus) (now : Nat),
      rm.targetSerials.contains agv.serialNumber = false →
      Mgr1.UpdateRobotDetailedStatus rm agv now = (rm, [])) ∧
    (∀ (rm : Mgr2.RobotManager) (msg : RobotConnectionMessage) (now : Nat),
      rm.targetSerials.contains msg.serialNumber = false →
      Mgr2.UpdateRobotConnectionStatus rm msg now = (rm, [])) ∧
    (∀ (rm : Mgr2.RobotManager) (msg : RobotStateMessage) (now : Nat),
      rm.targetSerials.contains msg.serialNumber = false →
      Mgr2.UpdateRobotStateStatus rm msg now = (rm, [])) ∧
    (∀ (rm : Mgr1.RobotManager) (msg : RobotConnectionMessage) (now : Nat),
      (∀ k ∈ rm.robots.map Prod.fst, rm.targetSerials.contains k = true) →
      ∀ k ∈ (Mgr1.UpdateRobotStatus rm msg now).1.robots.map Prod.fst,
        rm.targetSerials.contains k = true) ∧
    (∀ (rm : Mgr2.RobotManager) (msg : RobotStateMessage) (now : Nat),
      (∀ k ∈ rm.robots.map Prod.fst, rm.targetSerials.contains k = true) →
      ∀ k ∈ (Mgr2.UpdateRobotStateStatus rm msg now).1.robots.map Prod.fst,
        rm.targetSerials.contains k = true) := by
  refine ⟨?_, ?_, ?_, ?_, ?_, ?_⟩
  · intro rm msg now hroster
    unfold Mgr1.UpdateRobotStatus
    rw [if_pos hroster]
  · intro rm agv now hroster
    unfold Mgr1.UpdateRobotDetailedStatus
    rw [if_pos hroster]
  · intro rm msg now hroster
    unfold Mgr2.UpdateRobotConnectionStatus
    rw [if_pos hroster]
  · intro rm msg now hroster
    unfold Mgr2.UpdateRobotStateStatus
    rw [if_pos hroster]
  · intro rm msg now hall
    by_cases hroster : rm.targetSerials.contains msg.serialNumber = false
    · intro k hk
      simp only [Mgr1.UpdateRobotStatus] at hk
      rw [if_pos hroster] at hk
      exact hall k hk
    · have hroster' : rm.targetSerials.contains msg.serialNumber = true := by
        cases h : rm.targetSerials.contains msg.serialNumber
        · exact absurd h hroster
        · rfl
      intro k hk
      cases hl : mapLookup rm.robots msg.serialNumber with
      | some r0 =>
        simp only [Mgr1.UpdateRobotStatus, hl, Option.getD_some] at hk
        rw [if_neg hroster] at hk
        split at hk
        · exact hall k hk
        · exact keys_of_mapInsert_target _ _ _ _ hall hroster' k hk
      | none =>
        simp only [Mgr1.UpdateRobotStatus, hl, Option.getD_none] at hk
        rw [if_neg hroster] at hk
        split at hk
        · exact keys_of_mapInsert_target _ _ _ _ hall hroster' k hk
        · exact keys_of_mapInsert_target _ _ _ _
            (keys_of_mapInsert_target _ _ _ _ hall hroster') hroster' k hk
  · intro rm msg now hall
    by_cases hroster : rm.targetSerials.contains msg.serialNumber = false
    · intro k hk
      simp only [Mgr2.UpdateRobotStateStatus] at hk
      rw [if_pos hroster] at hk
      exact hall k hk
    · have hroster' : rm.targetSerials.contains msg.serialNumber = true := by
        cases h : rm.targetSerials.contains msg.serialNumber
        · exact absurd h hroster
        · rfl
      intro k hk
      cases hl : mapLookup rm.robots msg.serialNumber with
      | some r0 =>
        simp only [Mgr2.UpdateRobotStateStatus, hl, Option.getD_some] at hk
        rw [if_neg hroster] at hk
        exact keys_of_mapInsert_target _ _ _ _ hall hroster' k hk
      | none =>
        simp only [Mgr2.UpdateRobotStateStatus, hl, Option.getD_none] at hk
        rw [if_neg hroster] at hk
        exact keys_of_mapInsert_target _ _ _ _
          (keys_of_mapInsert_target _ _ _ _ hall hroster') hroster' k hk

/-- C5 witness: the no-op evaluated at the one-robot roster R1 and an
incoming message for the non-member R2, plus the roster invariant applied
at the concrete store. -/
theorem C5_witness :
    Mgr1.UpdateRobotStatus exRM1 exConnMsgR2 7 = (exRM1, []) ∧
    exRM1.targetSerials.contains "R1" = true :=
  ⟨C5_theorem.1 exRM1 exConnMsgR2 7 (by decide),
   C5_theorem.2.2.2.2.1 exRM1 exConnMsgEq 7 (by decide) "R1" (by decide)⟩

/-!  C7: the order-start timestamp rule. -/

/-- A detailed status (robot_manager.go variant) carrying a fresh order. -/
def exAgvOrder : AGVDetailedStatus :=
  { exAgv3 with orderID := "ord1", headerID := 6 }

/-- C7 counterexample. The claim says that for every detailed-telemetry
merge an orderId transition from empty to non-empty records a fresh
order-start timestamp. The robot_manager.go detailed merge has no
order-start logic at all: merging an order for the idle robot at tick 5
stores the new orderId but leaves the order-start timestamp at the zero
value instead of recording tick 5. -/
theorem C7_counterexample :
    ((mapLookup exRM1.robots "R1").map Mgr1.RobotStatus.currentOrderID = some "") ∧
    (exAgvOrder.orderID = "ord1") ∧
    ((mapLookup (Mgr1.UpdateRobotDetailedStatus exRM1 exAgvOrder 5).1.robots "R1").map
        Mgr1.RobotStatus.currentOrderID = some "ord1") ∧
    ((mapLookup (Mgr1.UpdateRobotDetailedStatus exRM1 exAgvOrder 5).1.robots "R1").map
        Mgr1.RobotStatus.orderStartTime = some 0) := by
  decide

/-- C7, amended. The order-start rule holds for the part_000 state merge:
when the incoming orderId is non-empty and the stored timestamp is the zero
time it is set to the current tick (once per order: when it is already
non-zero it is kept), and when the incoming orderId is empty it is reset to
zero; the invariant that the timestamp is zero exactly when no order is
stored is preserved. The robot_manager.go detailed merge, by contrast,
never records an order-start timestamp (see the counterexample). -/
theorem C7_theorem :
    (∀ (rm : Mgr2.RobotManager) (msg : RobotStateMessage) (now : Nat) (r : Mgr2.RobotStatus),
      rm.targetSerials.contains msg.serialNumber = true →
      mapLookup rm.robots msg.serialNumber = some r →
      ∃ r', mapLookup (Mgr2.UpdateRobotStateStatus rm msg now).1.robots msg.serialNumber =
          some r' ∧
        (msg.orderID ≠ "" → r.orderStartTime = 0 → r'.orderStartTime = now) ∧
        (msg.orderID ≠ "" → r.orderStartTime ≠ 0 → r'.orderStartTime = r.orderStartTime) ∧
        (msg.orderID = "" → r'.orderStartTime = 0) ∧
        (now ≠ 0 → (r.orderStartTime = 0 ↔ r.currentOrderID = "") →
          (r'.orderStartTime = 0 ↔ r'.currentOrderID = ""))) ∧
    (∀ (rm : Mgr1.RobotManager) (agv : AGVDetailedStatus) (now : Nat)
        (r r' : Mgr1.RobotStatus),
      mapLookup rm.robots agv.serialNumber = some r →
      mapLookup (Mgr1.UpdateRobotDetailedStatus rm agv now).1.robots agv.serialNumber = some r' →
      r'.orderStartTime = r.orderStartTime) := by
  constructor
  · intro rm msg now r hroster hr
    have hroster' : ¬(rm.targetSerials.contains msg.serialNumber = false) := by
      rw [hroster]
      decide
    simp only [Mgr2.UpdateRobotStateStatus, hr, Option.getD_some]
    rw [if_neg hroster']
    by_cases hc : r.hasConnectionInfo = false ∨ msg.headerID > r.lastHeaderID
    · rw [if_pos hc]
      refine ⟨_, mapLookup_mapInsert_self _ _ _, ?_, ?_, ?_, ?_⟩
      · intro hmsg host
        split_ifs with h1 h2
        · rfl
        · exfalso
          simp only [bne_iff_ne, ne_eq] at h2
          simp at h2
          exact hmsg h2
        · exfalso
          exact h1 ⟨by simpa using hmsg, by simpa using host⟩
      · intro hmsg host
        split_ifs with h1 h2
        · exfalso
          simp at h1
          exact host h1.2
        · exfalso
          simp at h2
          exact hmsg h2
        · rfl
      · intro hmsg
        split_ifs with h1 h2
        · exfalso
          simp at h1
          exact h1.1 hmsg
        · rfl
        · exfalso
          apply h2
          simp [hmsg]
      · intro hnow hiff
        split_ifs with h1 h2
        · simp at h1 ⊢
          exact ⟨fun h => absurd h hnow, fun h => absurd h h1.1⟩
        · simp at h2 ⊢
          exact h2
        · simp at h1 h2 ⊢
          constructor
          · intro h
            exact absurd h (h1 h2)
          · intro h
            exact absurd h h2
    · rw [if_neg hc]
      refine ⟨_, mapLookup_mapInsert_self _ _ _, ?_, ?_, ?_, ?_⟩
      · intro hmsg host
        split_ifs with h1 h2
        · rfl
        · exfalso
          simp at h2
          exact hmsg h2
        · exfalso
          exact h1 ⟨by simpa using hmsg, by simpa using host⟩
      · intro hmsg host
        split_ifs with h1 h2
        · exfalso
          simp at h1
          exact host h1.2
        · exfalso
          simp at h2
          exact hmsg h2
        · rfl
      · intro hmsg
        split_ifs with h1 h2
        · exfalso
          simp at h1
          exact h1.1 hmsg
        · rfl
        · exfalso
          apply h2
          simp [hmsg]
      · intro hnow hiff
        split_ifs with h1 h2
        · simp at h1 ⊢
          exact ⟨fun h => absurd h hnow, fun h => absurd h h1.1⟩
        · simp at h2 ⊢
          exact h2
        · simp at h1 h2 ⊢
          constructor
          · intro h
            exact absurd h (h1 h2)
          · intro h
            exact absurd h h2
  · intro rm agv now r r' hr hr'
    by_cases hroster : rm.targetSerials.contains agv.serialNumber = false
    · simp only [Mgr1.UpdateRobotDetailedStatus] at hr'
      rw [if_pos hroster] at hr'
      rw [hr] at hr'
      injection hr' with h
      subst h
      rfl
    · simp only [Mgr1.UpdateRobotDetailedStatus, hr, Option.getD_some] at hr'
      rw [if_neg hroster] at hr'
      rw [mapLookup_mapInsert_self] at hr'
      injection hr' with h
      subst h
      rfl

/-- A state message carrying a fresh order for R1. -/
def exStateMsgOrder : RobotStateMessage :=
  { exStateMsgPartial with orderID := "ord1" }

/-- C7 witness: merging a fresh order into the part_000 store at tick 5
records tick 5 as the order-start timestamp (the stored record was idle
with a zero timestamp). -/
theorem C7_witness :
    (mapLookup (Mgr2.UpdateRobotStateStatus exRM2d exStateMsgOrder 5).1.robots
        exStateMsgOrder.serialNumber).map Mgr2.RobotStatus.orderStartTime = some 5 := by
  obtain ⟨r', hfind, h1, h2, h3, h4⟩ :=
    C7_theorem.1 exRM2d exStateMsgOrder 5 exRobot2d (by decide) (by decide)
  rw [hfind]
  simp only [Option.map]
  rw [h1 (by decide) (by decide)]

/-!  C9: the store lock is released around the callback invocation. -/

/-- C9: every callback invocation a connection merge performs happens at
mutex depth zero: the store releases its write lock before calling the
transition listener (and re-acquires it afterwards), in both the
robot_manager.go and the part_000 variant, so a listener may re-enter the
store without deadlocking. -/
theorem C9_theorem :
    (∀ (rm : Mgr1.RobotManager) (msg : RobotConnectionMessage) (now : Nat) (e : CallbackEvent),
      e ∈ (Mgr1.UpdateRobotStatus rm msg now).2 → e.lockDepth = 0) ∧
    (∀ (rm : Mgr2.RobotManager) (msg : RobotConnectionMessage) (now : Nat) (e : CallbackEvent),
      e ∈ (Mgr2.UpdateRobotConnectionStatus rm msg now).2 → e.lockDepth = 0) := by
  constructor
  · intro rm msg now e he
    by_cases hroster : rm.targetSerials.contains msg.serialNumber = false
    · simp only [Mgr1.UpdateRobotStatus] at he
      rw [if_pos hroster] at he
      simp at he
    · simp only [Mgr1.UpdateRobotStatus] at he
      rw [if_neg hroster] at he
      by_cases hstale :
        ((mapLookup rm.robots msg.serialNumber).getD
          (Mgr1.RobotStatus.new msg.serialNumber msg.manufacturer)).lastHeaderID > msg.headerID
      · rw [if_pos hstale] at he
        simp at he
      · rw [if_neg hstale] at he
        by_cases hfire :
          ((mapLookup rm.robots msg.serialNumber).getD
            (Mgr1.RobotStatus.new msg.serialNumber msg.manufacturer)).connectionState ≠
            msg.connectionState ∧ rm.hasCallback = true
        · rw [if_pos hfire] at he
          simp only [List.mem_singleton] at he
          subst he
          rfl
        · rw [if_neg hfire] at he
          simp at he
  · intro rm msg now e he
    by_cases hroster : rm.targetSerials.contains msg.serialNumber = false
    · simp only [Mgr2.UpdateRobotConnectionStatus] at he
      rw [if_pos hroster] at he
      simp at he
    · simp only [Mgr2.UpdateRobotConnectionStatus] at he
      rw [if_neg hroster] at he
      by_cases hstale :
        ((mapLookup rm.robots msg.serialNumber).getD
            (Mgr2.RobotStatus.new msg.serialNumber msg.manufacturer)).hasConnectionInfo = true ∧
        ((mapLookup rm.robots msg.serialNumber).getD
            (Mgr2.RobotStatus.new msg.serialNumber msg.manufacturer)).lastHeaderID > msg.headerID
      · rw [if_pos hstale] at he
        simp at he
      · rw [if_neg hstale] at he
        by_cases hfire :
          ((mapLookup rm.robots msg.serialNumber).getD
            (Mgr2.RobotStatus.new msg.serialNumber msg.manufacturer)).connectionState ≠
            msg.connectionState ∧ rm.hasCallback = true
        · rw [if_pos hfire] at he
          simp only [List.mem_singleton] at he
          subst he
          rfl
        · rw [if_neg hfire] at he
          simp at he

/-- C9 witness: the state-changing equal-header merge at the concrete store
fires its callback, and that invocation is at lock depth zero. -/
theorem C9_witness :
    (⟨"R1", Online, Offline, lockAtCallback⟩ : CallbackEvent).lockDepth = 0 :=
  C9_theorem.1 exRM1 exConnMsgEq 7 ⟨"R1", Online, Offline, lockAtCallback⟩ (by decide)

/-!  C4: the controller-command parsing grammar. -/

/-- C4 counterexample. The claim says every payload lacking the separator
is a parse error; the legacy payload "init" has no separator yet parses
successfully, to the command "init" with an empty serial. -/
theorem C4_counterexample :
    (goContainsChar (goTrimSpace "init") ':' = false) ∧
    ParsePLCActionMessage "init" = some { action := "init", serialNumber := "" } := by
  decide

/-- C4, amended. Parsing succeeds exactly when the whitespace-trimmed
payload either contains the separator with non-empty trimmed serial and
command segments, or is the legacy payload "init", which parses to the
command "init" with an empty serial; in the separator case the result
carries the serial and command segments (split at the first separator). -/
theorem C4_theorem (payload : String) :
    ((ParsePLCActionMessage payload).isSome = true ↔
      ((goContainsChar (goTrimSpace payload) ':' = true ∧
        serialSegment (goTrimSpace payload) ≠ "" ∧
        commandSegment (goTrimSpace payload) ≠ "") ∨
       (goContainsChar (goTrimSpace payload) ':' = false ∧ goTrimSpace payload = "init"))) ∧
    (∀ m, ParsePLCActionMessage payload = some m →
      (goContainsChar (goTrimSpace payload) ':' = true →
        m.serialNumber = serialSegment (goTrimSpace payload) ∧
        m.action = commandSegment (goTrimSpace payload)) ∧
      (goContainsChar (goTrimSpace payload) ':' = false →
        m.serialNumber = "" ∧ m.action = "init")) := by
  constructor
  · unfold ParsePLCActionMessage
    by_cases hc : goContainsChar (goTrimSpace payload) ':' = true
    · rw [if_pos hc]
      by_cases hv : serialSegment (goTrimSpace payload) = "" ∨
          commandSegment (goTrimSpace payload) = ""
      · rw [if_pos hv]
        rcases hv with hv | hv <;> simp [hc, hv]
      · rw [if_neg hv]
        push_neg at hv
        simp [hc, hv.1, hv.2]
    · rw [if_neg hc]
      rw [Bool.not_eq_true] at hc
      by_cases hinit : goTrimSpace payload = "init"
      · rw [if_pos hinit]
        rw [hinit] at hc
        simp [hc, hinit]
      · rw [if_neg hinit]
        simp [hc, hinit]
  · intro m hm
    unfold ParsePLCActionMessage at hm
    by_cases hc : goContainsChar (goTrimSpace payload) ':' = true
    · rw [if_pos hc] at hm
      constructor
      · intro _
        by_cases hv : serialSegment (goTrimSpace payload) = "" ∨
            commandSegment (goTrimSpace payload) = ""
        · rw [if_pos hv] at hm
          exact absurd hm (by simp)
        · rw [if_neg hv] at hm
          injection hm with h
          subst h
          exact ⟨rfl, rfl⟩
      · intro hfalse
        rw [hfalse] at hc
        exact absurd hc (by decide)
    · rw [if_neg hc] at hm
      rw [Bool.not_eq_true] at hc
      constructor
      · intro htrue
        rw [htrue] at hc
        exact absurd hc (by decide)
      · intro _
        split at hm
        · injection hm with h
          subst h
          exact ⟨rfl, rfl⟩
        · exact absurd hm (by simp)

/-- The two-segment example payload from the specification. -/
def exPayloadA : String := "DEX0002:I:pickA"

/-- The empty-serial example payload from the specification. -/
def exPayloadB : String := ":init"

/-- The separator-free unknown example payload from the specification. -/
def exPayloadC : String := "badcommand"

/-- C4 witness: the amended grammar evaluated at the examples from the
specification: the two-segment payload parses with serial DEX0002 and
command I:pickA, while the empty-serial payload and the separator-free
unknown payload fail to parse. -/
theorem C4_witness :
    (ParsePLCActionMessage exPayloadA).isSome = true ∧
    serialSegment (goTrimSpace exPayloadA) = "DEX0002" ∧
    commandSegment (goTrimSpace exPayloadA) = "I:pickA" ∧
    (ParsePLCActionMessage exPayloadB).isSome = false ∧
    (ParsePLCActionMessage exPayloadC).isSome = false := by
  refine ⟨?_, by decide, by decide, ?_, ?_⟩
  · exact (C4_theorem exPayloadA).1.mpr (Or.inl ⟨by decide, by decide, by decide⟩)
  · cases hs : (ParsePLCActionMessage exPayloadB).isSome
    · rfl
    · exact absurd ((C4_theorem exPayloadB).1.mp hs) (by decide)
  · cases hs : (ParsePLCActionMessage exPayloadC).isSome
    · rfl
    · exact absurd ((C4_theorem exPayloadC).1.mp hs) (by decide)

/-!  Length facts about the hex identifiers. -/

theorem flatMap_hexByteChars_length (l : List Nat) :
    (l.flatMap hexByteChars).length = 2 * l.length := by
  induction l with
  | nil => rfl
  | cons b t ih =>
    simp only [List.flatMap_cons, List.length_append, ih, hexByteChars, List.length_cons,
      List.length_nil, List.length_cons]
    omega

theorem hexOfBytes_length (l : List Nat) : (hexOfBytes l).length = 2 * l.length := by
  simp only [hexOfBytes, String.length, flatMap_hexByteChars_length]

theorem byteBlock_length (e : Nat → Fin 16 → Nat) (i : Nat) : (byteBlock e i).length = 16 := by
  simp [byteBlock]

theorem hex_byteBlock_ne_empty (e : Nat → Fin 16 → Nat) (i : Nat) :
    hexOfBytes (byteBlock e i) ≠ "" := by
  intro h
  have hlen := congrArg String.length h
  rw [hexOfBytes_length, byteBlock_length] at hlen
  simp at hlen

/-!  C8: the liveness re-check of the delayed auto-init workflow. -/

/-- The concrete entropy oracle used by witnesses. -/
def exEntropy : Nat → Fin 16 → Nat := fun i k => i * 16 + k.val

/-- A concrete action handler. -/
def exAH : ActionHandler := NewActionHandler exEntropy

/-- The R1 robot gone OFFLINE again (part_000 variant). -/
def exRobot2off : Mgr2.RobotStatus :=
  { exRobot2 with connectionState := Offline, isOnline := false }

/-- Store in which R1 is OFFLINE at send time. -/
def exRM2off : Mgr2.RobotManager :=
  { robots := [("R1", exRobot2off)], targetSerials := ["R1"], hasCallback := true }

/-- C8: if the target robot is no longer online in the store when the
scheduled delay elapses, the delayed workflow body publishes nothing (the
liveness re-check fails and the step is skipped); the message-processor
send path independently refuses to publish for a robot that is not online;
and the workflow is only ever scheduled for an enabled auto-init on a
transition from a non-ONLINE state to ONLINE. -/
theorem C8_theorem :
    (∀ (rm : Mgr2.RobotManager) (ah : ActionHandler) (now : Nat) (serialNumber : String),
      Mgr2.IsRobotOnline rm serialNumber = false →
      (autoInitDelayedBody rm ah now serialNumber).1 = none) ∧
    (∀ (rm : Mgr2.RobotManager) (ah : ActionHandler) (now : Nat)
        (plcAction : PLCActionMessage) (serialNumber : String),
      Mgr2.IsRobotOnline rm serialNumber = false →
      (sendActionToRobotMP rm ah now plcAction serialNumber).1 = none) ∧
    (∀ (cfg : AppConfig) (oldState newState : ConnectionState),
      autoInitScheduled cfg oldState newState = true →
      cfg.autoInitOnConnect = true ∧ oldState ≠ Online ∧ newState = Online) := by
  refine ⟨?_, ?_, ?_⟩
  · intro rm ah now serialNumber h
    unfold autoInitDelayedBody
    rw [if_pos h]
  · intro rm ah now plcAction serialNumber h
    unfold sendActionToRobotMP
    by_cases ht : Mgr2.IsTargetRobot rm serialNumber = false
    · rw [if_pos ht]
    · rw [if_neg ht, if_pos h]
  · intro cfg oldState newState h
    unfold autoInitScheduled at h
    simp only [Bool.and_eq_true, bne_iff_ne, ne_eq, beq_iff_eq] at h
    exact ⟨h.1.1, h.1.2, h.2⟩

/-- C8 witness: the delayed body evaluated against the store in which R1
has dropped OFFLINE again: nothing is published. -/
theorem C8_witness :
    (autoInitDelayedBody exRM2off exAH 9 "R1").1 = none :=
  C8_theorem.1 exRM2off exAH 9 "R1" (by decide)

/-!  C10: the legacy broadcast path for the bare init payload. -/

/-- Sending the init action through the bridge send path always publishes
when the client is connected and the target serial is non-empty: the
translation succeeds and the produced message passes validation (its
action identifier, 32 hex characters, is never empty). -/
theorem sendInit_publishes (ah : ActionHandler) (now : Nat) (s : String) (hs : s ≠ "") :
    ∃ p ah1, sendActionToRobotMB true ah now { action := "init", serialNumber := "" } s =
      (some p, ah1) := by
  unfold sendActionToRobotMB
  rw [if_neg (by decide)]
  unfold ConvertPLCActionToRobotAction
  rw [if_pos rfl]
  unfold createInitPositionAction createBaseRobotMessage generateActionID getNextHeaderID
  dsimp only
  rw [if_neg (by
    simp [validateRobotActionMessage, hs, bne_iff_ne,
      hex_byteBlock_ne_empty ah.entropy ah.entropyIdx])]
  exact ⟨_, _, rfl⟩

/-- The send loop of handlePLCActionMessage publishes one message per target
serial, in order, when every send succeeds. -/
theorem foldPublish_map_fst (plc : PLCActionMessage) (now : Nat) :
    ∀ (ts : List String) (acc : List (String × String × RobotActionMessage))
      (ah : ActionHandler),
    (∀ (ah0 : ActionHandler) (s : String), s ∈ ts →
      ∃ p ah1, sendActionToRobotMB true ah0 now plc s = (some p, ah1)) →
    ((ts.foldl
        (fun acc serialNumber =>
          match sendActionToRobotMB true acc.2 now plc serialNumber with
          | (some published, ah1) => (acc.1 ++ [(serialNumber, published.1, published.2)], ah1)
          | (none, ah1) => (acc.1, ah1))
        (acc, ah)).1.map Prod.fst = acc.map Prod.fst ++ ts) := by
  intro ts
  induction ts with
  | nil =>
    intro acc ah _
    simp
  | cons s t ih =>
    intro acc ah hok
    obtain ⟨p, ah1, heq⟩ := hok ah s (List.mem_cons_self _ _)
    simp only [List.foldl_cons, heq]
    rw [ih (acc ++ [(s, p.1, p.2)]) ah1
      (fun ah0 s0 hs0 => hok ah0 s0 (List.mem_cons_of_mem _ hs0))]
    simp

/-- C10: the bare payload "init" (no separator) parses successfully to the
init command with an empty serial, and the part_003 command handler treats
the empty serial as a broadcast: with the client connected it publishes the
init action to exactly the online target robots. -/
theorem C10_theorem :
    (ParsePLCActionMessage "init" = some { action := "init", serialNumber := "" }) ∧
    (∀ (rm : Mgr1.RobotManager) (ah : ActionHandler) (now : Nat),
      (∀ s ∈ (Mgr1.GetOnlineRobots rm).filter (fun s => Mgr1.IsTargetRobot rm s), s ≠ "") →
      (handlePLCActionMessage true rm ah now "init").1.map Prod.fst =
        (Mgr1.GetOnlineRobots rm).filter (fun s => Mgr1.IsTargetRobot rm s)) := by
  constructor
  · decide
  · intro rm ah now hne
    unfold handlePLCActionMessage
    rw [if_neg (by decide)]
    rw [show ParsePLCActionMessage "init" = some { action := "init", serialNumber := "" } from
      by decide]
    dsimp only
    rw [if_neg (by decide)]
    simp only [if_neg (show ¬(("" : String) ≠ "") from by simp)]
    by_cases hts : (Mgr1.GetOnlineRobots rm).filter (fun s => Mgr1.IsTargetRobot rm s) = []
    · rw [if_pos hts]
      simp [hts]
    · rw [if_neg hts]
      have h := foldPublish_map_fst { action := "init", serialNumber := "" } now
        ((Mgr1.GetOnlineRobots rm).filter (fun s => Mgr1.IsTargetRobot rm s)) [] ah
        (fun ah0 s0 hs0 => sendInit_publishes ah0 now s0 (hne s0 hs0))
      simpa using h

/-- C10 witness: handling the bare init payload against the store whose
only online target robot is R1 publishes exactly to R1. -/
theorem C10_witness :
    (handlePLCActionMessage true exRM1 exAH 9 "init").1.map Prod.fst = ["R1"] := by
  have h := C10_theorem.2 exRM1 exAH 9 (by decide)
  rw [h]
  decide

/-!  C6: header monotonicity and identifier freshness of the translator. -/

/-- All freshly generated identifiers a translated message carries: the
action identifiers of its simple actions, the action identifiers of its
node actions, and the order identifier when one is present. -/
def genIDsOf (m : RobotActionMessage) : List String :=
  m.actions.map Action.actionID ++
    m.nodes.flatMap (fun n => n.actions.map Action.actionID) ++
    (if m.orderID = "" then [] else [m.orderID])

theorem hexDigit_inj : ∀ a < 16, ∀ b < 16, hexDigit a = hexDigit b → a = b := by
  decide

theorem hexByteChars_inj : ∀ a < 256, ∀ b < 256, hexByteChars a = hexByteChars b → a = b := by
  intro a ha b hb h
  unfold hexByteChars at h
  injection h with h1 h2
  injection h2 with h2
  have e1 := hexDigit_inj (a / 16) (by omega) (b / 16) (by omega) h1
  have e2 := hexDigit_inj (a % 16) (by omega) (b % 16) (by omega) h2
  omega

theorem flatMap_hexByteChars_inj :
    ∀ (l1 l2 : List Nat), l1.length = l2.length →
    (∀ b ∈ l1, b < 256) → (∀ b ∈ l2, b < 256) →
    l1.flatMap hexByteChars = l2.flatMap hexByteChars → l1 = l2 := by
  intro l1
  induction l1 with
  | nil =>
    intro l2 hlen _ _ _
    cases l2 with
    | nil => rfl
    | cons b t2 => simp at hlen
  | cons a t ih =>
    intro l2 hlen h1 h2 heq
    cases l2 with
    | nil => simp at hlen
    | cons b t2 =>
      simp only [List.flatMap_cons] at heq
      obtain ⟨hh, ht⟩ := List.append_inj heq rfl
      have hab := hexByteChars_inj a (h1 a (by simp)) b (h2 b (by simp)) hh
      subst hab
      have := ih t2 (by simpa using hlen)
        (fun x hx => h1 x (by simp [hx])) (fun x hx => h2 x (by simp [hx])) ht
      rw [this]

theorem hexOfBytes_inj (l1 l2 : List Nat) (hlen : l1.length = l2.length)
    (h1 : ∀ b ∈ l1, b < 256) (h2 : ∀ b ∈ l2, b < 256)
    (h : hexOfBytes l1 = hexOfBytes l2) : l1 = l2 := by
  unfold hexOfBytes at h
  injection h with h
  exact flatMap_hexByteChars_inj l1 l2 hlen h1 h2 h

theorem byteBlock_lt (e : Nat → Fin 16 → Nat) (i : Nat) : ∀ b ∈ byteBlock e i, b < 256 := by
  intro b hb
  simp only [byteBlock, List.mem_map] at hb
  obtain ⟨k, -, hk⟩ := hb
  omega

/-- The entropy oracle does not repeat a 16-byte block among the draws in
the index interval: the embedding of the assumption that crypto/rand does
not collide across the identifiers generated in a run. -/
def EntropyInjectiveOn (e : Nat → Fin 16 → Nat) (lo hi : Nat) : Prop :=
  ∀ i j, lo ≤ i → i < hi → lo ≤ j → j < hi → byteBlock e i = byteBlock e j → i = j

theorem hexID_inj (e : Nat → Fin 16 → Nat) (lo hi : Nat) (he : EntropyInjectiveOn e lo hi)
    (i j : Nat) (hi1 : lo ≤ i) (hi2 : i < hi) (hj1 : lo ≤ j) (hj2 : j < hi)
    (h : hexOfBytes (byteBlock e i) = hexOfBytes (byteBlock e j)) : i = j :=
  he i j hi1 hi2 hj1 hj2
    (hexOfBytes_inj _ _ (by rw [byteBlock_length, byteBlock_length])
      (byteBlock_lt e i) (byteBlock_lt e j) h)

/-- Anatomy of a successful translation: the entropy oracle is unchanged,
the shared header counter advances by exactly one and stamps the message,
the entropy index never moves backwards, and every generated identifier in
the message is the hex rendering of one entropy draw taken during this
call. -/
theorem convert_success_spec (plc : PLCActionMessage) (s : String) (now : Nat)
    (ah : ActionHandler) (m : RobotActionMessage) (ah' : ActionHandler)
    (h : ConvertPLCActionToRobotAction plc s now ah = (some m, ah')) :
    ah'.entropy = ah.entropy ∧
    ah'.headerIDCounter = ah.headerIDCounter + 1 ∧
    m.headerID = ah.headerIDCounter + 1 ∧
    ah.entropyIdx ≤ ah'.entropyIdx ∧
    (∀ id ∈ genIDsOf m, ∃ i, ah.entropyIdx ≤ i ∧ i < ah'.entropyIdx ∧
      id = hexOfBytes (byteBlock ah.entropy i)) := by
  unfold ConvertPLCActionToRobotAction at h
  by_cases h1 : plc.action = "init"
  · rw [if_pos h1] at h
    unfold createInitPositionAction createBaseRobotMessage generateActionID getNextHeaderID at h
    dsimp only at h
    injection h with hm hah
    injection hm with hm
    subst hm
    subst hah
    refine ⟨rfl, rfl, rfl, Nat.le_succ _, ?_⟩
    intro id hid
    simp [genIDsOf] at hid
    subst hid
    exact ⟨ah.entropyIdx, le_refl _, Nat.lt_succ_self _, rfl⟩
  · rw [if_neg h1] at h
    by_cases h2 : plc.action = "factsheetRequest"
    · rw [if_pos h2] at h
      unfold createFactsheetRequestAction createBaseRobotMessage generateActionID
        getNextHeaderID at h
      dsimp only at h
      injection h with hm hah
      injection hm with hm
      subst hm
      subst hah
      refine ⟨rfl, rfl, rfl, Nat.le_succ _, ?_⟩
      intro id hid
      simp [genIDsOf] at hid
      subst hid
      exact ⟨ah.entropyIdx, le_refl _, Nat.lt_succ_self _, rfl⟩
    · rw [if_neg h2] at h
      by_cases h3 : "inference:".isPrefixOf plc.action = true
      · rw [if_pos h3] at h
        by_cases h4 : plc.action.drop 10 = ""
        · rw [if_pos h4] at h
          injection h with hm hah
          exact absurd hm (by simp)
        · rw [if_neg h4] at h
          unfold createInferenceAction createBaseRobotMessage generateActionID generateOrderID
            getNextHeaderID at h
          dsimp only at h
          injection h with hm hah
          injection hm with hm
          subst hm
          subst hah
          refine ⟨rfl, rfl, rfl, by
            show ah.entropyIdx ≤ ah.entropyIdx + 1 + 1 + 1
            omega, ?_⟩
          intro id hid
          simp only [genIDsOf, List.map_nil, List.nil_append, List.flatMap_cons,
            List.flatMap_nil, List.map_cons, List.append_nil,
            if_neg (hex_byteBlock_ne_empty ah.entropy (ah.entropyIdx + 1 + 1)),
            List.mem_append, List.mem_cons, List.mem_singleton, List.not_mem_nil,
            or_false, false_or] at hid
          rcases hid with hid | hid
          · subst hid
            exact ⟨ah.entropyIdx, le_refl _, by
              show ah.entropyIdx < ah.entropyIdx + 1 + 1 + 1
              omega, rfl⟩
          · subst hid
            exact ⟨ah.entropyIdx + 1 + 1, by omega, by
              show ah.entropyIdx + 1 + 1 < ah.entropyIdx + 1 + 1 + 1
              omega, rfl⟩
      · rw [if_neg h3] at h
        by_cases h5 : "trajectory:".isPrefixOf plc.action = true
        · rw [if_pos h5] at h
          by_cases h6 : plc.action.drop 11 = ""
          · rw [if_pos h6] at h
            injection h with hm hah
            exact absurd hm (by simp)
          · rw [if_neg h6] at h
            unfold createTrajectoryAction createBaseRobotMessage generateActionID generateOrderID
              getNextHeaderID at h
            dsimp only at h
            injection h with hm hah
            injection hm with hm
            subst hm
            subst hah
            refine ⟨rfl, rfl, rfl, by
              show ah.entropyIdx ≤ ah.entropyIdx + 1 + 1 + 1
              omega, ?_⟩
            intro id hid
            simp only [genIDsOf, List.map_nil, List.nil_append, List.flatMap_cons,
              List.flatMap_nil, List.map_cons, List.append_nil,
              if_neg (hex_byteBlock_ne_empty ah.entropy (ah.entropyIdx + 1 + 1)),
              List.mem_append, List.mem_cons, List.mem_singleton, List.not_mem_nil,
              or_false, false_or] at hid
            rcases hid with hid | hid
            · subst hid
              exact ⟨ah.entropyIdx, le_refl _, by
                show ah.entropyIdx < ah.entropyIdx + 1 + 1 + 1
                omega, rfl⟩
            · subst hid
              exact ⟨ah.entropyIdx + 1 + 1, by omega, by
                show ah.entropyIdx + 1 + 1 < ah.entropyIdx + 1 + 1 + 1
                omega, rfl⟩
        · rw [if_neg h5] at h
          injection h with hm hah
          exact absurd hm (by simp)

/-- C6: across two successive translate calls, for any robots and any
supported commands, the emitted messages carry strictly increasing header
sequence numbers drawn from the one counter the handler threads through
both calls, and all generated identifiers (action identifiers and, for
order-producing commands, the order identifier) are non-empty and pairwise
distinct across the two calls, provided the entropy oracle does not repeat
a 16-byte block among the draws the two calls consume. -/
theorem C6_theorem (ah0 : ActionHandler)
    (p1 p2 : PLCActionMessage) (s1 s2 : String) (t1 t2 : Nat)
    (m1 m2 : RobotActionMessage) (ah1 ah2 : ActionHandler)
    (h1 : ConvertPLCActionToRobotAction p1 s1 t1 ah0 = (some m1, ah1))
    (h2 : ConvertPLCActionToRobotAction p2 s2 t2 ah1 = (some m2, ah2))
    (he : EntropyInjectiveOn ah0.entropy ah0.entropyIdx ah2.entropyIdx) :
    m1.headerID < m2.headerID ∧
    (∀ id ∈ genIDsOf m1, id ≠ "") ∧
    (∀ id ∈ genIDsOf m2, id ≠ "") ∧
    (∀ id1 ∈ genIDsOf m1, ∀ id2 ∈ genIDsOf m2, id1 ≠ id2) := by
  obtain ⟨hee1, hc1, hh1, hi1, hg1⟩ := convert_success_spec p1 s1 t1 ah0 m1 ah1 h1
  obtain ⟨hee2, hc2, hh2, hi2, hg2⟩ := convert_success_spec p2 s2 t2 ah1 m2 ah2 h2
  refine ⟨by omega, ?_, ?_, ?_⟩
  · intro id hid
    obtain ⟨i, -, -, hv⟩ := hg1 id hid
    rw [hv]
    exact hex_byteBlock_ne_empty _ _
  · intro id hid
    obtain ⟨i, -, -, hv⟩ := hg2 id hid
    rw [hv]
    exact hex_byteBlock_ne_empty _ _
  · intro id1 hid1 id2 hid2 heq
    obtain ⟨i, hla, hha, hv1⟩ := hg1 id1 hid1
    obtain ⟨j, hlb, hhb, hv2⟩ := hg2 id2 hid2
    rw [hee1] at hv2
    rw [hv1, hv2] at heq
    have hij := hexID_inj ah0.entropy ah0.entropyIdx ah2.entropyIdx he i j
      hla (by omega) (by omega) hhb heq
    omega

/-- The entropy oracle used in witnesses: draw i is the block whose first
byte is i (distinct blocks for draw indices below 256). -/
def exEntropy2 : Nat → Fin 16 → Nat := fun i k => if k.val = 0 then i else 0

/-- A concrete action handler over exEntropy2. -/
def exAH2 : ActionHandler := NewActionHandler exEntropy2

/-- First translate call of the witness: init for R1. -/
def exConv1 : Option RobotActionMessage × ActionHandler :=
  ConvertPLCActionToRobotAction { action := "init", serialNumber := "" } "R1" 9 exAH2

/-- Second translate call of the witness: init for R2, continuing from the
state the first call returned. -/
def exConv2 : Option RobotActionMessage × ActionHandler :=
  ConvertPLCActionToRobotAction { action := "init", serialNumber := "" } "R2" 9 exConv1.2

/-- C6 witness: two successive init translations yield headers 2 and 3 and
distinct non-empty action identifiers. -/
theorem C6_witness :
    (exConv1.1.getD default).headerID < (exConv2.1.getD default).headerID ∧
    ((exConv1.1.getD default).actions.headD default).actionID ≠
      ((exConv2.1.getD default).actions.headD default).actionID := by
  have hinj : EntropyInjectiveOn exAH2.entropy exAH2.entropyIdx exConv2.2.entropyIdx := by
    intro i j hi1 hi2 hj1 hj2 heq
    have hhead := congrArg (fun l => l.headD 0) heq
    dsimp only at hhead
    have hi : (byteBlock exAH2.entropy i).headD 0 = i % 256 := rfl
    have hj : (byteBlock exAH2.entropy j).headD 0 = j % 256 := rfl
    rw [hi, hj] at hhead
    have hbound : exConv2.2.entropyIdx = 2 := by decide
    rw [hbound] at hi2 hj2
    omega
  have h1 : ConvertPLCActionToRobotAction { action := "init", serialNumber := "" } "R1" 9 exAH2 =
      (some (exConv1.1.getD default), exConv1.2) := by
    have hsome : exConv1.1 = some (exConv1.1.getD default) := by decide
    have base : ConvertPLCActionToRobotAction { action := "init", serialNumber := "" } "R1" 9
        exAH2 = (exConv1.1, exConv1.2) := rfl
    rw [base, hsome]
    simp
  have h2 : ConvertPLCActionToRobotAction { action := "init", serialNumber := "" } "R2" 9
      exConv1.2 = (some (exConv2.1.getD default), exConv2.2) := by
    have hsome : exConv2.1 = some (exConv2.1.getD default) := by decide
    have base : ConvertPLCActionToRobotAction { action := "init", serialNumber := "" } "R2" 9
        exConv1.2 = (exConv2.1, exConv2.2) := rfl
    rw [base, hsome]
    simp
  have key := C6_theorem exAH2 { action := "init", serialNumber := "" }
    { action := "init", serialNumber := "" } "R1" "R2" 9 9
    (exConv1.1.getD default) (exConv2.1.getD default) exConv1.2 exConv2.2 h1 h2 hinj
  refine ⟨key.1, ?_⟩
  exact key.2.2.2 _ (by decide) _ (by decide)

/-- C1 witness: the amended staleness rule evaluated at the concrete store
holding header 5 and an incoming header-3 OFFLINE message, for both store
variants. -/
theorem C1_witness :
    Mgr1.UpdateRobotStatus exRM1 exConnMsgOld 7 = (exRM1, []) ∧
    Mgr2.UpdateRobotConnectionStatus exRM2 exConnMsgOld 7 = (exRM2, []) :=
  ⟨C1_theorem.1 exRM1 exConnMsgOld 7 exRobot1 (by decide) (by decide),
   C1_theorem.2.2.1 exRM2 exConnMsgOld 7 exRobot2 (by decide) (by decide) (by decide)⟩

end Bridge
